import Mathlib

/-!
Verification of the FastDrivingTestFinder worker engine (`worker.py`,
`dvsa_client.py`) against its natural-language specification.

The embedding models time as integer seconds.  A timestamp string stored
in the sqlite `centre_health` / `search_state` tables either parses to a
time (`Ts.valid t`) or is garbage (`Ts.invalid`), mirroring the
`datetime.fromisoformat` try/except in the source.  The browser-level
DVSA interaction (out of scope per the spec, hidden behind
`DVSAClient`) is abstracted as a `Portal` function giving the outcome of
each login+search attempt; everything else is translated directly from
`worker.py`.
-/

namespace FastDTF

/-- A stored timestamp string: either parses to an integer time (seconds)
or fails to parse (the `except` branches of `_parse_iso` /
`datetime.fromisoformat`). -/
inductive Ts where
  | valid (t : Int)
  | invalid
deriving DecidableEq, Repr

/-- `datetime.fromisoformat` on a stored string: `some` on success. -/
def parseIso : Ts → Option Int
  | .valid t => some t
  | .invalid => none

/-! Kernel-computable counterparts of the Python string methods used by
the worker (`str.strip`, `str.lower`, `str.split`, `str.startswith`),
defined over the character list. -/

/-- Python `str.strip()`: drop whitespace from both ends. -/
def trimStr (s : String) : String :=
  ⟨((s.data.dropWhile Char.isWhitespace).reverse.dropWhile Char.isWhitespace).reverse⟩

/-- Python `str.lower()`. -/
def lowerStr (s : String) : String :=
  ⟨s.data.map Char.toLower⟩

/-- Python `str.startswith(p)`. -/
def startsWith (p s : String) : Bool :=
  p.data.isPrefixOf s.data

/-- Fuel-bounded worker for `splitWs` (the fuel is the list length, so it
never runs out; structural recursion keeps it kernel-computable). -/
def splitWsGo : Nat → List Char → List String
  | 0, _ => []
  | fuel + 1, l =>
    match l with
    | [] => []
    | c :: rest =>
      if c.isWhitespace then splitWsGo fuel rest
      else
        ⟨(c :: rest).takeWhile (fun x => !x.isWhitespace)⟩ ::
          splitWsGo fuel ((c :: rest).drop
            ((c :: rest).takeWhile (fun x => !x.isWhitespace)).length)

/-- Python `str.split()`: split on whitespace runs, dropping empties. -/
def splitWs (l : List Char) : List String :=
  splitWsGo l.length l

/-- Environment configuration of `worker.py` (defaults from the source). -/
structure Config where
  CB_FAILS_THRESHOLD : Nat := 12
  CB_COOLDOWN_SEC : Int := 120
  CAPTCHA_COOLDOWN_MIN : Int := 30
  STALE_MINUTES : Int := 5
  AUTOBOOK_ENABLED : Bool := true
  /-- `CURRENT_PRIORITY_CENTRES`: lowercased priority-centre name list. -/
  priorityCentres : List String := []
deriving Repr

/-- One row of the sqlite `centre_health` table. -/
structure HealthRow where
  fail_count : Nat
  cooldown_until : Option Ts
deriving DecidableEq, Repr

/-- The `centre_health` table, keyed by centre name. -/
abbrev HealthDB := List (String × HealthRow)

def lookupRow (db : HealthDB) (c : String) : Option HealthRow :=
  (db.find? (fun p => p.1 == c)).map (·.2)

def setRow (db : HealthDB) (c : String) (r : HealthRow) : HealthDB :=
  match db with
  | [] => [(c, r)]
  | (k, v) :: rest => if k == c then (k, r) :: rest else (k, v) :: setRow rest c r

/-- `centre_fail` (worker.py): sqlite upsert.  Fresh insert stores
`(fail_count = 1, cooldown_until = NULL)`; on conflict the counter is
bumped, and when it reaches `CB_FAILS_THRESHOLD` it resets to 0 and the
cooldown is stamped `now + CB_COOLDOWN_SEC`. -/
def centre_fail (cfg : Config) (now : Int) (db : HealthDB) (centre : String) : HealthDB :=
  match lookupRow db centre with
  | none => setRow db centre ⟨1, none⟩
  | some r =>
      let n := r.fail_count + 1
      if cfg.CB_FAILS_THRESHOLD ≤ n then
        setRow db centre ⟨0, some (.valid (now + cfg.CB_COOLDOWN_SEC))⟩
      else
        setRow db centre ⟨n, r.cooldown_until⟩

/-- Shared body of `centre_allowed` / `global_allowed`: no row, NULL
cooldown, or an unparsable timestamp all yield `true` (fail open);
otherwise allowed once `now` has reached the stored instant. -/
def cooldownOk (now : Int) : Option HealthRow → Bool
  | none => true
  | some r =>
    match r.cooldown_until with
    | none => true
    | some ts =>
      match parseIso ts with
      | none => true
      | some u => decide (u ≤ now)

/-- `centre_allowed` (worker.py). -/
def centre_allowed (now : Int) (db : HealthDB) (centre : String) : Bool :=
  cooldownOk now (lookupRow db centre)

/-- The reserved global circuit-breaker key. -/
def globalKey : String := "*global*"

/-- `global_cooldown` (worker.py): upsert of the `*global*` row with
`cooldown_until = now + max(1, extra_min) minutes`; a fresh insert has
`fail_count = 0`, a conflict keeps the stored counter. -/
def global_cooldown (cfg : Config) (now : Int) (db : HealthDB) : HealthDB :=
  let u : Ts := .valid (now + 60 * max 1 cfg.CAPTCHA_COOLDOWN_MIN)
  match lookupRow db globalKey with
  | none => setRow db globalKey ⟨0, some u⟩
  | some r => setRow db globalKey ⟨r.fail_count, some u⟩

/-- `global_allowed` (worker.py). -/
def global_allowed (now : Int) (db : HealthDB) : Bool :=
  cooldownOk now (lookupRow db globalKey)

/-- `_is_stale` (worker.py): a missing or unparsable timestamp is never
stale; otherwise stale iff strictly older than `minutes`. -/
def _is_stale (now : Int) (ts : Option Ts) (minutes : Int) : Bool :=
  match ts with
  | none => false
  | some t =>
    match parseIso t with
    | none => false
    | some u => decide (60 * minutes < now - u)

/-- A claimed job row as delivered by the coordinator
(`centres` is the parsed `centres_json`, `auto_book` the parsed
`options_json.auto_book`). -/
structure Job where
  id : Nat
  booking_type : String := ""
  licence_number : String := ""
  booking_reference : String := ""
  status : String := ""
  last_event : String := ""
  updated_at : Option Ts := none
  created_at : Option Ts := none
  centres : List String := []
  auto_book : Bool := false
deriving DecidableEq, Repr

/-- `_missing_required_fields` (worker.py). -/
def _missing_required_fields (row : Job) : Option String :=
  let bt := trimStr row.booking_type
  let licence := trimStr row.licence_number
  let ref := trimStr row.booking_reference
  if licence == "" then some "missing_licence_number"
  else if bt == "swap" && !(ref.length == 8 && ref.data.all Char.isDigit) then
    some "missing_or_bad_booking_reference"
  else none

/-- `normalize_centres` (worker.py): strip, drop empties, and drop a
leading "london"/"city"/"borough" word when at least two words remain
(rejoining the remaining words with single spaces, as
`" ".join(parts[1:])` does). -/
def normalize_centres (cs : List String) : List String :=
  cs.filterMap fun c =>
    let c0 := trimStr c
    if c0 == "" then none
    else
      match splitWs c0.data with
      | p0 :: p1 :: rest =>
          if lowerStr p0 == "london" || lowerStr p0 == "city" || lowerStr p0 == "borough" then
            some (String.intercalate " " (p1 :: rest))
          else some c0
      | _ => some c0

/-- `session_base` (worker.py): swap jobs key on the booking reference,
new jobs on the licence number, falling back to a per-job tag. -/
def session_base (row : Job) : String :=
  if trimStr row.booking_type == "swap" then
    trimStr (if row.booking_reference == "" then "job" ++ toString row.id else row.booking_reference)
  else
    trimStr (if row.licence_number == "" then "job" ++ toString row.id else row.licence_number)

/-- The in-memory `CAPTCHA_ALERT_SENT` debounce map: identity → epoch
seconds of the last alert. -/
abbrev AlertMap := List (String × Int)

def alertLookup (m : AlertMap) (k : String) : Int :=
  (((m.find? (fun p => p.1 == k)).map (·.2)).getD 0)

def alertSet (m : AlertMap) (k : String) (v : Int) : AlertMap :=
  match m with
  | [] => [(k, v)]
  | (k0, v0) :: rest => if k0 == k then (k0, v) :: rest else (k0, v0) :: alertSet rest k v

/-- `send_captcha_alert` (worker.py): sends a WhatsApp alert unless one
was already sent for the same identity within the last 600 seconds;
returns whether it sent, and the updated debounce map. -/
def send_captcha_alert (now : Int) (m : AlertMap) (row : Job) : Bool × AlertMap :=
  let ident := session_base row
  let last := alertLookup m ident
  if now - last < 600 then (false, m)
  else (true, alertSet m ident now)

/-! ### The DVSA client boundary (`dvsa_client.py`) -/

/-- The only defensive-signal exception type raised by `dvsa_client.py`
(`class CaptchaDetected(DVSAError)`); there is no separate block/challenge
taxonomy in the code. -/
inductive DVSASignal where
  | captchaDetected
deriving DecidableEq, Repr

/-- Substring test on character lists (Python `k in html`). -/
def subList (n : List Char) : List Char → Bool
  | [] => n == []
  | c :: rest => n.isPrefixOf (c :: rest) || subList n rest

def subStr (needle hay : String) : Bool :=
  subList needle.data hay.data

/-- The indicator list of `_captcha_guard` (dvsa_client.py): challenge-wall
widgets and traffic-block phrases share one list. -/
def CAPTCHA_INDICATORS : List String :=
  ["recaptcha", "hcaptcha", "turnstile",
   "not a robot", "unusual traffic", "additional security check",
   "enter the characters", "are you human",
   "verify you are human", "security challenge", "captcha"]

/-- `_captcha_guard` (dvsa_client.py): lowercases the page content; if any
indicator occurs, raises `CaptchaDetected` (`some`), else returns normally. -/
def _captcha_guard (html : String) : Option DVSASignal :=
  if CAPTCHA_INDICATORS.any (fun k => subStr k (lowerStr html)) then
    some .captchaDetected
  else none

/-- Outcome of one `DVSAClient` login+search attempt for one centre, as
observed by `dvsa_check_centre`'s try/except: a slot list, a
`CaptchaDetected` raise, or a generic exception (layout-like or not). -/
inductive PortalResult where
  | slots (l : List String)
  | captcha
  | failure (layoutLike : Bool)
deriving DecidableEq, Repr

/-- The out-of-scope browser session: outcome per (centre, 1-based attempt
number). -/
abbrev Portal := String → Nat → PortalResult

/-! ### Worker state and `dvsa_check_centre` -/

/-- Mutable state shared by the worker process: the sqlite tables and the
in-memory alert-debounce map, plus the current time (held fixed during a
pass). -/
structure World where
  health : HealthDB := []
  sigs : List (Nat × String) := []
  alerts : AlertMap := []
  now : Int := 0
deriving DecidableEq, Repr

def sigSet (m : List (Nat × String)) (k : Nat) (v : String) : List (Nat × String) :=
  match m with
  | [] => [(k, v)]
  | (k0, v0) :: rest => if k0 == k then (k0, v) :: rest else (k0, v0) :: sigSet rest k v

/-- `get_last_slot_sig` (worker.py). -/
def get_last_slot_sig (w : World) (sid : Nat) : Option String :=
  (w.sigs.find? (fun p => p.1 == sid)).map (·.2)

/-- `save_last_slot_sig` (worker.py): upsert of the per-search slot
signature. -/
def save_last_slot_sig (w : World) (sid : Nat) (sig : String) : World :=
  { w with sigs := sigSet w.sigs sid sig }

/-- How one `dvsa_check_centre` call ended. -/
inductive CheckOutcome where
  | pausedEarly
  | skipGlobal
  | skipCentre
  | pausedPreNet
  | gotSlots (l : List String)
  | captchaRaised
  | gaveUp
deriving DecidableEq, Repr

/-- Result of the attempt loop inside `dvsa_check_centre`:
`events` are the per-job breadcrumbs posted, `notes` the WhatsApp
notifications sent, `calls` the portal interactions (centre, attempt). -/
structure AttemptRes where
  outcome : CheckOutcome
  events : List String
  notes : List String
  calls : List (String × Nat)
  w : World
deriving DecidableEq, Repr

/-- The `for attempt in range(1, attempts+1)` loop of `dvsa_check_centre`
(attempts = 5), with `remaining` the attempts left (so `remaining = 0`
inside the loop means this was the last attempt).  On `CaptchaDetected`:
`centre_fail` + `global_cooldown` + debounced alert + a
`captcha_cooldown:<centre>` event, then re-raise.  On a generic
exception: a `layout_issue:<centre>` breadcrumb when the message looks
layout-like; on the final attempt `centre_fail` and give up (return []),
otherwise back off and retry. -/
def dvsa_attempts (cfg : Config) (portal : Portal) (row : Job) (centre : String) :
    Nat → Nat → World → AttemptRes
  | 0, _, w => ⟨.gaveUp, [], [], [], w⟩
  | remaining + 1, attempt, w =>
    match portal centre attempt with
    | .slots l =>
        ⟨.gotSlots l,
         ["login_start:" ++ centre, "login_ok:" ++ centre,
          "checked:" ++ centre ++ " (" ++ toString l.length ++ " slots)"],
         [], [(centre, attempt)], w⟩
    | .captcha =>
        let h := global_cooldown cfg w.now (centre_fail cfg w.now w.health centre)
        let sa := send_captcha_alert w.now w.alerts row
        ⟨.captchaRaised,
         ["login_start:" ++ centre, "captcha_cooldown:" ++ centre],
         (if sa.1 then ["captcha_alert:" ++ session_base row] else []),
         [(centre, attempt)],
         { w with health := h, alerts := sa.2 }⟩
    | .failure lay =>
        let evs := ["login_start:" ++ centre] ++ (if lay then ["layout_issue:" ++ centre] else [])
        if remaining == 0 then
          ⟨.gaveUp, evs, [], [(centre, attempt)],
           { w with health := centre_fail cfg w.now w.health centre }⟩
        else
          let r := dvsa_attempts cfg portal row centre remaining (attempt + 1) w
          ⟨r.outcome, evs ++ r.events, r.notes, (centre, attempt) :: r.calls, r.w⟩

/-- Result of `dvsa_check_centre`, with `pc` the pause-flag read counter
after the call (each read of `CTRL["pause_all"]` consumes one index of
the `pause` stream). -/
structure CheckResult where
  outcome : CheckOutcome
  events : List String
  notes : List String
  calls : List (String × Nat)
  w : World
  pc : Nat
deriving DecidableEq, Repr

/-- `dvsa_check_centre` (worker.py): resume override from the cached last
event; global pause gate; global then per-centre circuit-breaker gates;
a second pause gate just before any network activity; then the attempt
loop (5 attempts). -/
def dvsa_check_centre (cfg : Config) (portal : Portal) (pause : Nat → Bool)
    (row : Job) (centre : String) (w : World) (pc : Nat) : CheckResult :=
  let resume_override := row.last_event == "resume_now"
  if pause pc then
    ⟨.pausedEarly, ["paused:global"], [], [], w, pc + 1⟩
  else if !resume_override && !global_allowed w.now w.health then
    ⟨.skipGlobal, ["cooldown_skip:*global*"], [], [], w, pc + 1⟩
  else if !resume_override && !centre_allowed w.now w.health centre then
    ⟨.skipCentre, ["cooldown_skip:" ++ centre], [], [], w, pc + 1⟩
  else if pause (pc + 1) then
    ⟨.pausedPreNet, ["paused:global"], [], [], w, pc + 2⟩
  else
    let r := dvsa_attempts cfg portal row centre 5 1 w
    ⟨r.outcome, r.events, r.notes, r.calls, r.w, pc + 2⟩

/-! ### Per-job deterministic shuffle (`random.Random(sid).shuffle(low)`) -/

/-- Safe array swap. -/
def arrSwap (a : Array String) (i j : Nat) : Array String :=
  match a.get? i, a.get? j with
  | some vi, some vj => (a.setD i vj).setD j vi
  | _, _ => a

/-- The Fisher–Yates loop of CPython's `Random.shuffle`:
`for i in reversed(range(1, len(x))): j = _randbelow(i+1); swap x[i] x[j]`.
The seeded PRNG `_randbelow` is abstracted as
`rand : seed → call index → bound → value` (reduced mod the bound); it is
a pure function of the seed and the call sequence, exactly as CPython's
`Random(seed)` is. -/
def pyShuffleGo (rand : Nat → Nat → Nat → Nat) (seed : Nat) :
    Nat → Nat → Array String → Array String
  | 0, _, a => a
  | i + 1, k, a =>
      let j := rand seed k (i + 2) % (i + 2)
      pyShuffleGo rand seed i (k + 1) (arrSwap a (i + 1) j)

/-- `random.Random(seed).shuffle(xs)`: deterministic in `(seed, xs)`. -/
def pyShuffle (rand : Nat → Nat → Nat → Nat) (seed : Nat) (xs : List String) : List String :=
  (pyShuffleGo rand seed (xs.length - 1) 0 xs.toArray).toList

/-! ### `process_job` (worker.py) -/

/-- The accumulating state of one pass of `process_job` over a job's
centres: `found`/`captcha`/`lastChecked` are the nonlocal variables of
`check_one`; `attempted` records the centres for which a `trying:<c>`
event was posted (one entry per `post_event_api(f"trying:{c}")`). -/
structure PassState where
  found : Option String := none
  captcha : Bool := false
  lastChecked : Option String := none
  attempted : List String := []
  events : List String := []
  notes : List String := []
  calls : List (String × Nat) := []
  w : World
  pc : Nat
deriving DecidableEq, Repr

/-- `check_one` (worker.py): pause gate, then skip when a slot was already
found or a captcha already hit; otherwise record `last_checked`, post
`trying:<c>`, run `dvsa_check_centre`, and fold its outcome into the
nonlocals (`CaptchaDetected` sets `captcha_hit`; a non-empty slot list
sets `found_slot` to its head). -/
def check_one (cfg : Config) (portal : Portal) (pause : Nat → Bool) (row : Job)
    (st : PassState) (c : String) : PassState :=
  if pause st.pc then { st with pc := st.pc + 1 }
  else if st.found.isSome || st.captcha then { st with pc := st.pc + 1 }
  else
    let r := dvsa_check_centre cfg portal pause row c st.w (st.pc + 1)
    let st' := { st with
      lastChecked := some c
      attempted := st.attempted ++ [c]
      events := st.events ++ ["trying:" ++ c] ++ r.events
      notes := st.notes ++ r.notes
      calls := st.calls ++ r.calls
      w := r.w
      pc := r.pc }
    match r.outcome with
    | .captchaRaised => { st' with captcha := true }
    | .gotSlots l =>
        if !l.isEmpty && st'.found.isNone then { st' with found := l.head? } else st'
    | _ => st'

/-- `run_pass` (worker.py) in the default serial configuration
(`HONOUR_CLIENT_RPS=true` forces effective parallelism 1): a sequential
fold of `check_one` over the given centres. -/
def runPass (cfg : Config) (portal : Portal) (pause : Nat → Bool) (row : Job)
    (st : PassState) (cs : List String) : PassState :=
  cs.foldl (check_one cfg portal pause row) st

/-- Result of `process_job`: `statusSet` is the final
`set_status_api` call (status, event) when it succeeded; `bookCalls` the
slots passed to `dvsa_swap_to_slot` / `dvsa_book_and_pay`. -/
structure ProcResult where
  statusSet : Option (String × String) := none
  attempted : List String := []
  events : List String := []
  notes : List String := []
  calls : List (String × Nat) := []
  bookCalls : List String := []
  w : World
deriving DecidableEq, Repr

/-- Side effects of `set_status_api` (worker.py): for `booking_type ==
"new"` a WhatsApp message is sent on `found` / `booked` / `failed`. -/
def set_status_effects (row : Job) (status : String) : List String :=
  if row.booking_type == "new" then
    if status == "found" then ["wa_found"]
    else if status == "booked" then ["wa_booked"]
    else if status == "failed" then ["wa_failed"]
    else []
  else []

/-- Tail of `process_job` (worker.py lines 714–744): the pause re-check,
the captcha / no-slot requeues, the slot-signature dedup, and the
auto-book branch.  `apiOk` models whether `set_status_api` succeeds
(when it raises, the exception escapes `process_job`); `book` the
outcome of `dvsa_swap_to_slot` / `dvsa_book_and_pay`. -/
def finish_pass (cfg : Config) (pause : Nat → Bool) (apiOk : Bool) (book : Bool)
    (row : Job) (st : PassState) : Except Unit ProcResult :=
  let base : ProcResult :=
    { attempted := st.attempted, events := st.events, notes := st.notes,
      calls := st.calls, w := st.w }
  let put : String → String → World → List String → Except Unit ProcResult :=
    fun status ev w bk =>
      if apiOk then
        .ok { base with
          statusSet := some (status, ev),
          notes := st.notes ++ set_status_effects row status,
          bookCalls := bk, w := w }
      else .error ()
  if pause st.pc then put "queued" "paused:global" st.w []
  else if st.captcha then
    put "queued" ("captcha_cooldown:" ++ (st.lastChecked.getD "")) st.w []
  else
    match st.found with
    | none => put "queued" ("no_slots_this_round:" ++ (st.lastChecked.getD "")) st.w []
    | some slot =>
      if get_last_slot_sig st.w row.id == some slot then
        put "queued" ("slot_unchanged:" ++ (st.lastChecked.getD "")) st.w []
      else
        let w' := save_last_slot_sig st.w row.id slot
        if cfg.AUTOBOOK_ENABLED && row.auto_book then
          if book then put "booked" ("booked:" ++ slot) w' [slot]
          else put "failed" ("booking_failed:" ++ slot) w' [slot]
        else put "found" ("slot_found:" ++ slot) w' []

/-- The stale-requeue annotation `f"stale_skipped:>{STALE_MINUTES}m"`
(worker.py). -/
def staleEvt (cfg : Config) : String :=
  "stale_skipped:>" ++ toString cfg.STALE_MINUTES ++ "m"

/-- The priority split of `process_job`: centres whose lowercased name
starts with a configured priority name go first. -/
def prioritySplit (cfg : Config) (centres : List String) : List String × List String :=
  (centres.filter (fun c => cfg.priorityCentres.any (fun p => startsWith p (lowerStr c))),
   centres.filter (fun c => !(cfg.priorityCentres.any (fun p => startsWith p (lowerStr c)))))

/-- `process_job` (worker.py): early pause bail (its status call is inside
a try/except, so it never raises); stale guard for active `searching`
rows; required-credential guard; centre normalisation and priority
split; the strict priority pass, then — only if nothing was found, no
captcha hit, and pause not observed — the shuffled remainder pass; then
`finish_pass`.  `pause` is the stream of `CTRL["pause_all"]` reads. -/
def process_job (cfg : Config) (portal : Portal) (rand : Nat → Nat → Nat → Nat)
    (pause : Nat → Bool) (apiOk : Bool) (book : Bool) (row : Job) (w : World) :
    Except Unit ProcResult :=
  if pause 0 then
    .ok { statusSet := if apiOk then some ("queued", "paused:global") else none,
          events := ["paused:global"], w := w }
  else if trimStr row.status == "searching"
      && _is_stale w.now (row.updated_at.or row.created_at) cfg.STALE_MINUTES then
    if apiOk then
      .ok { statusSet := some ("queued", staleEvt cfg), w := w }
    else .error ()
  else
    match _missing_required_fields row with
    | some reason =>
        if apiOk then .ok { statusSet := some ("queued", reason), w := w }
        else .error ()
    | none =>
      let centres0 := normalize_centres row.centres
      let centres := if centres0.isEmpty then ["(no centre provided)"] else centres0
      let split := prioritySplit cfg centres
      let lowShuffled := pyShuffle rand row.id split.2
      let st1 := runPass cfg portal pause row { w := w, pc := 1 } split.1
      if st1.found.isNone && !st1.captcha then
        if pause st1.pc then
          finish_pass cfg pause apiOk book row { st1 with pc := st1.pc + 1 }
        else
          finish_pass cfg pause apiOk book row
            (runPass cfg portal pause row { st1 with pc := st1.pc + 1 } lowShuffled)
      else
        finish_pass cfg pause apiOk book row st1

/-! ### The main loop (`run`, worker.py) -/

/-- One tick's external inputs to the `while True` body of `run`. -/
structure LoopInput where
  /-- whether `get_controls_api` succeeded (it swallows errors into `{}`). -/
  controlsOk : Bool := true
  pause_all : Bool := false
  quiet : Bool := false
  /-- whether `claim_candidates_api` succeeded (it raises after retries). -/
  claimOk : Bool := true
  jobs : List Job := []
deriving Repr

/-- How one iteration of the loop body ended.  Every constructor
continues the loop; there is no crash outcome — the whole body sits in
`try/except` and any exception is logged followed by a one-poll-interval
sleep. -/
inductive LoopOutcome where
  | pausedIdle
  | quietIdle
  | noJobs
  | processed (results : List ProcResult)
  | batchError
deriving Repr

/-- Outcomes on which the loop sleeps one poll interval before the next
tick. -/
def LoopOutcome.sleepsPoll : LoopOutcome → Bool
  | .pausedIdle | .quietIdle | .noJobs | .batchError => true
  | .processed _ => false

/-- `asyncio.gather(*(process_job ...))`, serialised: process jobs in
order; an escaping exception from any job aborts the batch (it is the
caller's `except` that handles it). -/
def processBatch (cfg : Config) (portal : Portal) (rand : Nat → Nat → Nat → Nat)
    (pause : Nat → Bool) (apiOk : Bool) (book : Bool) :
    List Job → World → Bool × List ProcResult × World
  | [], w => (true, [], w)
  | j :: rest, w =>
    match process_job cfg portal rand pause apiOk book j w with
    | .error _ => (false, [], w)
    | .ok r =>
      let t := processBatch cfg portal rand pause apiOk book rest r.w
      (t.1, r :: t.2.1, t.2.2)

/-- One iteration of the `while True` body of `run` (worker.py): refresh
controls (a failed fetch keeps the previous pause value `prevPause`);
if paused, sleep; if quiet hours or the global circuit breaker is
closed, sleep; claim candidates (a raise is caught as a batch error);
process the batch; any batch exception is caught, logged and followed by
a poll-interval backoff.  Total by construction: the loop never
terminates on a job failure. -/
def loopIter (cfg : Config) (portal : Portal) (rand : Nat → Nat → Nat → Nat)
    (pause : Nat → Bool) (apiOk : Bool) (book : Bool) (prevPause : Bool)
    (inp : LoopInput) (w : World) : LoopOutcome × World :=
  let pauseEff := if inp.controlsOk then inp.pause_all else prevPause
  if pauseEff then (.pausedIdle, w)
  else if inp.quiet || !global_allowed w.now w.health then (.quietIdle, w)
  else if !inp.claimOk then (.batchError, w)
  else if inp.jobs.isEmpty then (.noJobs, w)
  else
    match processBatch cfg portal rand pause apiOk book inp.jobs w with
    | (true, rs, w') => (.processed rs, w')
    | (false, _, w') => (.batchError, w')

/-! ### Association-list lemmas -/

theorem lookupRow_setRow_self (db : HealthDB) (c : String) (r : HealthRow) :
    lookupRow (setRow db c r) c = some r := by
  induction db with
  | nil => simp [setRow, lookupRow, List.find?]
  | cons p rest ih =>
    obtain ⟨k, v⟩ := p
    by_cases h : k = c
    · subst h
      simp [setRow, lookupRow, List.find?]
    · have hb : (k == c) = false := by simpa using h
      simpa [setRow, hb, lookupRow, List.find?] using ih

theorem lookupRow_setRow_ne (db : HealthDB) (c k : String) (r : HealthRow) (h : k ≠ c) :
    lookupRow (setRow db c r) k = lookupRow db k := by
  induction db with
  | nil =>
    have hb : (c == k) = false := by simpa using (Ne.symm h)
    simp [setRow, lookupRow, List.find?, hb]
  | cons p rest ih =>
    obtain ⟨k0, v⟩ := p
    by_cases h0 : k0 = c
    · subst h0
      have hb : (k0 == k) = false := by simpa using fun e => h e.symm
      simp [setRow, lookupRow, List.find?, hb]
    · have hb0 : (k0 == c) = false := by simpa using h0
      by_cases h1 : k0 = k
      · subst h1
        simp [setRow, hb0, lookupRow, List.find?]
      · have hb1 : (k0 == k) = false := by simpa using h1
        simpa [setRow, hb0, hb1, lookupRow, List.find?] using ih

theorem centre_fail_lookup_ne (cfg : Config) (t : Int) (db : HealthDB) (c k : String)
    (h : k ≠ c) : lookupRow (centre_fail cfg t db c) k = lookupRow db k := by
  unfold centre_fail
  cases lookupRow db c with
  | none => exact lookupRow_setRow_ne db c k _ h
  | some r =>
    by_cases ht : cfg.CB_FAILS_THRESHOLD ≤ r.fail_count + 1 <;>
      simp [ht, lookupRow_setRow_ne db c k _ h]

theorem global_cooldown_lookup (cfg : Config) (t : Int) (db : HealthDB) :
    ∃ fc, lookupRow (global_cooldown cfg t db) globalKey
      = some ⟨fc, some (.valid (t + 60 * max 1 cfg.CAPTCHA_COOLDOWN_MIN))⟩ := by
  unfold global_cooldown
  cases lookupRow db globalKey with
  | none => exact ⟨0, lookupRow_setRow_self ..⟩
  | some r => exact ⟨r.fail_count, lookupRow_setRow_self ..⟩

theorem global_cooldown_lookup_none (cfg : Config) (t : Int) (db : HealthDB)
    (h : lookupRow db globalKey = none) :
    lookupRow (global_cooldown cfg t db) globalKey
      = some ⟨0, some (.valid (t + 60 * max 1 cfg.CAPTCHA_COOLDOWN_MIN))⟩ := by
  unfold global_cooldown
  rw [h]
  exact lookupRow_setRow_self ..

/-! ### C10: the circuit-breaker checks fail open -/

/-- **C10.** For every resource, `centre_allowed` returns `true` whenever
no health row exists, the stored `cooldown_until` is NULL, or the stored
timestamp fails to parse, and `global_allowed` behaves the same way for
the reserved `*global*` key.  (Both embedded checks are total Lean
functions, mirroring the source's catch-all `except` branches: no
exception reaches the caller.) -/
theorem C10_fail_open (now : Int) (db : HealthDB) (c : String) :
    (lookupRow db c = none → centre_allowed now db c = true)
    ∧ (∀ fc, lookupRow db c = some ⟨fc, none⟩ → centre_allowed now db c = true)
    ∧ (∀ fc, lookupRow db c = some ⟨fc, some .invalid⟩ → centre_allowed now db c = true)
    ∧ (lookupRow db globalKey = none → global_allowed now db = true)
    ∧ (∀ fc, lookupRow db globalKey = some ⟨fc, none⟩ → global_allowed now db = true)
    ∧ (∀ fc, lookupRow db globalKey = some ⟨fc, some .invalid⟩ → global_allowed now db = true) := by
  refine ⟨fun h => ?_, fun fc h => ?_, fun fc h => ?_,
          fun h => ?_, fun fc h => ?_, fun fc h => ?_⟩ <;>
    simp [centre_allowed, global_allowed, h, cooldownOk, parseIso]

/-- Witness for C10 at concrete inputs. -/
theorem C10_fail_open_witness :
    centre_allowed 0 [] "alpha" = true
    ∧ centre_allowed 99 [("alpha", ⟨3, none⟩)] "alpha" = true
    ∧ centre_allowed 99 [("alpha", ⟨3, some .invalid⟩)] "alpha" = true
    ∧ global_allowed 0 [] = true :=
  ⟨(C10_fail_open 0 [] "alpha").1 rfl,
   (C10_fail_open 99 [("alpha", ⟨3, none⟩)] "alpha").2.1 3 rfl,
   (C10_fail_open 99 [("alpha", ⟨3, some .invalid⟩)] "alpha").2.2.1 3 rfl,
   (C10_fail_open 0 [] "alpha").2.2.2.1 rfl⟩

/-! ### C3: the consecutive-failure threshold -/

/-- `F` consecutive `centre_fail` calls at the given times. -/
def iterFails (cfg : Config) (ts : List Int) (db : HealthDB) (c : String) : HealthDB :=
  ts.foldl (fun d t => centre_fail cfg t d c) db

theorem iterFails_count (cfg : Config) (c : String) :
    ∀ (ts : List Int) (db : HealthDB) (k0 : Nat),
      lookupRow db c = some ⟨k0, none⟩ →
      k0 + ts.length < cfg.CB_FAILS_THRESHOLD →
      lookupRow (iterFails cfg ts db c) c = some ⟨k0 + ts.length, none⟩ := by
  intro ts
  induction ts with
  | nil => intro db k0 h _; simpa [iterFails] using h
  | cons t rest ih =>
    intro db k0 h hlt
    simp only [List.length_cons] at hlt
    have hstep : centre_fail cfg t db c = setRow db c ⟨k0 + 1, none⟩ := by
      have hnt : ¬ cfg.CB_FAILS_THRESHOLD ≤ k0 + 1 := by omega
      simp [centre_fail, h, hnt]
    have hrec := ih (centre_fail cfg t db c) (k0 + 1)
      (by rw [hstep]; exact lookupRow_setRow_self ..)
      (by omega)
    simpa [iterFails, List.foldl_cons, Nat.add_comm, Nat.add_assoc, Nat.add_left_comm]
      using hrec

/-- After `0 < L < F` failures from a fresh resource the stored row is
`(L, NULL)`. -/
theorem iterFails_fresh (cfg : Config) (c : String) (ts : List Int) (db : HealthDB)
    (hdb : lookupRow db c = none) (hlen : ts.length < cfg.CB_FAILS_THRESHOLD) :
    lookupRow (iterFails cfg ts db c) c
      = if ts.isEmpty then none else some ⟨ts.length, none⟩ := by
  cases ts with
  | nil => simpa [iterFails] using hdb
  | cons t rest =>
    have hstep : centre_fail cfg t db c = setRow db c ⟨1, none⟩ := by
      simp [centre_fail, hdb]
    have := iterFails_count cfg c rest (centre_fail cfg t db c) 1
      (by rw [hstep]; exact lookupRow_setRow_self ..)
      (by simp at hlen ⊢; omega)
    simpa [iterFails, List.foldl_cons, Nat.add_comm] using this

/-- **C3 counterexample.**  The claim quantifies over every threshold
`F = CB_FAILS_THRESHOLD`.  With `F = 1`, one `centre_fail` call on a
fresh resource takes the sqlite INSERT path, which stores
`(fail_count = 1, cooldown_until = NULL)` without consulting the
threshold — so after exactly `F = 1` consecutive failures the resource
is still allowed, contradicting "isAllowed is false immediately". -/
theorem C3_threshold_one_cex :
    centre_allowed 100 (centre_fail { CB_FAILS_THRESHOLD := 1 } 100 [] "alpha") "alpha" = true
    ∧ lookupRow (centre_fail { CB_FAILS_THRESHOLD := 1 } 100 [] "alpha") "alpha"
        = some ⟨1, none⟩ := by
  constructor <;> rfl

/-- **C3 (amended).**  For every resource and every threshold
`F = CB_FAILS_THRESHOLD ≥ 2` with a positive `CB_COOLDOWN_SEC`, starting
from a resource with no health row: after each of the first `F - 1`
consecutive `centre_fail` calls the resource is still allowed; the
`F`-th call resets the stored counter to zero and, at the same instant,
stamps `cooldown_until = t_F + CB_COOLDOWN_SEC`; from then on
`centre_allowed` is false exactly until the cooldown has elapsed (in
particular it is false at the instant of the `F`-th failure). -/
theorem C3_threshold_amended (cfg : Config) (c : String) (db : HealthDB)
    (ts : List Int) (tLast : Int)
    (hdb : lookupRow db c = none)
    (hF : 2 ≤ cfg.CB_FAILS_THRESHOLD)
    (hcb : 0 < cfg.CB_COOLDOWN_SEC)
    (hlen : ts.length + 1 = cfg.CB_FAILS_THRESHOLD) :
    (∀ k t', k ≤ ts.length → centre_allowed t' (iterFails cfg (ts.take k) db c) c = true)
    ∧ lookupRow (iterFails cfg (ts ++ [tLast]) db c) c
        = some ⟨0, some (.valid (tLast + cfg.CB_COOLDOWN_SEC))⟩
    ∧ (∀ t', centre_allowed t' (iterFails cfg (ts ++ [tLast]) db c) c
        = decide (tLast + cfg.CB_COOLDOWN_SEC ≤ t'))
    ∧ centre_allowed tLast (iterFails cfg (ts ++ [tLast]) db c) c = false := by
  have hramp : ∀ k, k ≤ ts.length →
      lookupRow (iterFails cfg (ts.take k) db c) c
        = if (ts.take k).isEmpty then none else some ⟨(ts.take k).length, none⟩ := by
    intro k hk
    exact iterFails_fresh cfg c (ts.take k) db hdb
      (by rw [List.length_take]; omega)
  have hpen : lookupRow (iterFails cfg ts db c) c = some ⟨ts.length, none⟩ := by
    have h0 : ts.take ts.length = ts := List.take_length ..
    have := hramp ts.length le_rfl
    rw [h0] at this
    have hne : ¬ ts.isEmpty := by
      cases ts with
      | nil => simp at hlen; omega
      | cons a l => simp
    simpa [hne] using this
  have hfin : lookupRow (iterFails cfg (ts ++ [tLast]) db c) c
      = some ⟨0, some (.valid (tLast + cfg.CB_COOLDOWN_SEC))⟩ := by
    have hsplit : iterFails cfg (ts ++ [tLast]) db c
        = centre_fail cfg tLast (iterFails cfg ts db c) c := by
      simp [iterFails, List.foldl_append]
    rw [hsplit]
    have htrig : cfg.CB_FAILS_THRESHOLD ≤ ts.length + 1 := by omega
    simp [centre_fail, hpen, htrig, lookupRow_setRow_self]
  refine ⟨?_, hfin, ?_, ?_⟩
  · intro k t' hk
    have := hramp k hk
    by_cases he : (ts.take k).isEmpty
    · simp [he] at this
      simp [centre_allowed, this, cooldownOk]
    · simp [he] at this
      simp [centre_allowed, this, cooldownOk]
  · intro t'
    simp [centre_allowed, hfin, cooldownOk, parseIso]
  · have : ¬ (tLast + cfg.CB_COOLDOWN_SEC ≤ tLast) := by omega
    simp [centre_allowed, hfin, cooldownOk, parseIso, this]

/-- Witness for C3 (amended): threshold 2, cooldown 120 s, failures at
times 90 and 100. -/
theorem C3_threshold_amended_witness :
    centre_allowed 95 (iterFails { CB_FAILS_THRESHOLD := 2 } (List.take 1 [90]) [] "alpha") "alpha" = true
    ∧ lookupRow (iterFails { CB_FAILS_THRESHOLD := 2 } ([90] ++ [100]) [] "alpha") "alpha"
        = some ⟨0, some (.valid 220)⟩
    ∧ centre_allowed 100 (iterFails { CB_FAILS_THRESHOLD := 2 } ([90] ++ [100]) [] "alpha") "alpha" = false
    ∧ centre_allowed 220 (iterFails { CB_FAILS_THRESHOLD := 2 } ([90] ++ [100]) [] "alpha") "alpha" = true := by
  have h := C3_threshold_amended { CB_FAILS_THRESHOLD := 2 } "alpha" [] [90] 100
    rfl (by decide) (by decide) rfl
  refine ⟨h.1 1 95 (by decide), ?_, h.2.2.2, ?_⟩
  · simpa using h.2.1
  · simpa using h.2.2.1 220

/-! ### C8: layout-issue retries -/

/-- A concrete job fixture used by several witnesses: a valid "new"
booking. -/
def jobNew : Job :=
  { id := 7, booking_type := "new", licence_number := "ABCDE12345",
    status := "queued", centres := ["alpha", "beta"] }

/-- **C8 counterexample.**  A resource whose every attempt fails
layout-like: the attempt is retried 5 times, each posting a
`layout_issue` breadcrumb, and the resource is then skipped for the pass
— but, contrary to the claim, the exhaustion path *does* call
`centre_fail(centre)`: the resource's stored failure counter is
incremented (here from no row to `fail_count = 1`), so the skip counts
against the resource's health. -/
theorem C8_layout_counts_health_cex :
    (dvsa_check_centre {} (fun _ _ => .failure true) (fun _ => false) jobNew "alpha"
        { now := 0 } 0).outcome = .gaveUp
    ∧ (dvsa_check_centre {} (fun _ _ => .failure true) (fun _ => false) jobNew "alpha"
        { now := 0 } 0).events.count "layout_issue:alpha" = 5
    ∧ (dvsa_check_centre {} (fun _ _ => .failure true) (fun _ => false) jobNew "alpha"
        { now := 0 } 0).calls.length = 5
    ∧ lookupRow (dvsa_check_centre {} (fun _ _ => .failure true) (fun _ => false) jobNew "alpha"
        { now := 0 } 0).w.health "alpha" = some ⟨1, none⟩ := by
  refine ⟨rfl, ?_, rfl, rfl⟩
  decide

/-- **C8 (amended).**  A resource attempt failing with a layout-like
error is retried up to the fixed bound of 5 attempts with short backoff;
after exhaustion the resource is skipped for this pass (empty slot list,
`gaveUp`), each attempt leaves a durable `layout_issue:<centre>`
breadcrumb, no human notification fires — but one failure *is* recorded
against the resource's health via `centre_fail`, so the skip does count
toward that resource's circuit breaker. -/
theorem C8_layout_amended (cfg : Config) (portal : Portal) (pause : Nat → Bool)
    (row : Job) (centre : String) (w : World) (pc : Nat)
    (hp1 : pause pc = false) (hp2 : pause (pc + 1) = false)
    (hg : global_allowed w.now w.health = true)
    (hc : centre_allowed w.now w.health centre = true)
    (hfail : ∀ a, 1 ≤ a → a ≤ 5 → portal centre a = .failure true) :
    dvsa_check_centre cfg portal pause row centre w pc
      = ⟨.gaveUp,
         ["login_start:" ++ centre, "layout_issue:" ++ centre,
          "login_start:" ++ centre, "layout_issue:" ++ centre,
          "login_start:" ++ centre, "layout_issue:" ++ centre,
          "login_start:" ++ centre, "layout_issue:" ++ centre,
          "login_start:" ++ centre, "layout_issue:" ++ centre],
         [],
         [(centre, 1), (centre, 2), (centre, 3), (centre, 4), (centre, 5)],
         { w with health := centre_fail cfg w.now w.health centre },
         pc + 2⟩ := by
  have h1 := hfail 1 (by omega) (by omega)
  have h2 := hfail 2 (by omega) (by omega)
  have h3 := hfail 3 (by omega) (by omega)
  have h4 := hfail 4 (by omega) (by omega)
  have h5 := hfail 5 (by omega) (by omega)
  simp [dvsa_check_centre, hp1, hp2, hg, hc, dvsa_attempts, h1, h2, h3, h4, h5]

/-- Witness for C8 (amended) at concrete inputs. -/
theorem C8_layout_amended_witness :
    dvsa_check_centre {} (fun _ _ => .failure true) (fun _ => false) jobNew "alpha"
        { now := 0 } 0
      = ⟨.gaveUp,
         ["login_start:alpha", "layout_issue:alpha", "login_start:alpha", "layout_issue:alpha",
          "login_start:alpha", "layout_issue:alpha", "login_start:alpha", "layout_issue:alpha",
          "login_start:alpha", "layout_issue:alpha"],
         [],
         [("alpha", 1), ("alpha", 2), ("alpha", 3), ("alpha", 4), ("alpha", 5)],
         { now := 0, health := centre_fail {} 0 [] "alpha" },
         2⟩ :=
  C8_layout_amended {} (fun _ _ => .failure true) (fun _ => false) jobNew "alpha"
    { now := 0 } 0 rfl rfl rfl rfl (fun _ _ _ => rfl)

/-! ### The captcha handling path (shared by C1 and C9) -/

/-- When `CaptchaDetected` escapes the first attempt for a centre,
`dvsa_check_centre` records `centre_fail`, sets the global cooldown,
sends the (10-minute-debounced) alert, posts `captcha_cooldown:<centre>`
and re-raises. -/
theorem dvsa_check_centre_captcha (cfg : Config) (portal : Portal) (pause : Nat → Bool)
    (row : Job) (centre : String) (w : World) (pc : Nat)
    (hp1 : pause pc = false) (hp2 : pause (pc + 1) = false)
    (hg : global_allowed w.now w.health = true)
    (hc : centre_allowed w.now w.health centre = true)
    (hcap : portal centre 1 = .captcha) :
    dvsa_check_centre cfg portal pause row centre w pc
      = ⟨.captchaRaised,
         ["login_start:" ++ centre, "captcha_cooldown:" ++ centre],
         (if w.now - alertLookup w.alerts (session_base row) < 600 then []
          else ["captcha_alert:" ++ session_base row]),
         [(centre, 1)],
         { w with
             health := global_cooldown cfg w.now (centre_fail cfg w.now w.health centre),
             alerts := (send_captcha_alert w.now w.alerts row).2 },
         pc + 2⟩ := by
  by_cases hd : w.now - alertLookup w.alerts (session_base row) < 600 <;>
    simp [dvsa_check_centre, hp1, hp2, hg, hc, dvsa_attempts, hcap,
      send_captcha_alert, hd]

/-! ### C9: a single defensive-signal taxonomy -/

/-- **C9 counterexample.**  `_captcha_guard` keeps challenge-wall widgets
("recaptcha") and traffic-block phrases ("unusual traffic") in one
indicator list and raises the *same* `CaptchaDetected` signal for both
— there is no distinct `Blocked(stage)` signal in the code
(`DVSASignal` has a single member).  Moreover the worker's sole handler
for that signal applies the challenge-wall policy even to a block
marker: the *global* cooldown is set and a human notification fires,
contradicting "Blocked triggers only a per-resource cooldown and never
a human notification". -/
theorem C9_single_signal_cex :
    _captcha_guard "our systems have detected unusual traffic" = some .captchaDetected
    ∧ _captcha_guard "tick the recaptcha box to continue" = some .captchaDetected
    ∧ (∀ s t : DVSASignal, s = t)
    ∧ lookupRow (dvsa_check_centre {} (fun _ _ => .captcha) (fun _ => false) jobNew "alpha"
        { now := 1000 } 0).w.health globalKey = some ⟨0, some (.valid 2800)⟩
    ∧ (dvsa_check_centre {} (fun _ _ => .captcha) (fun _ => false) jobNew "alpha"
        { now := 1000 } 0).notes = ["captcha_alert:ABCDE12345"] := by
  refine ⟨?_, ?_, fun s t => by cases s; cases t; rfl, rfl, rfl⟩ <;> decide

/-- **C9 (amended).**  Defensive-signal detection scans one indicator
list containing both challenge-wall widget names and traffic-block
phrases; any hit raises the single signal `CaptchaDetected` (the only
member of the taxonomy), and the worker handles it with one policy:
record a per-resource failure, set the global cooldown, send a debounced
human notification, post `captcha_cooldown:<centre>`, and stop the pass. -/
theorem C9_single_signal_amended (html : String) :
    (_captcha_guard html = some .captchaDetected
      ↔ (CAPTCHA_INDICATORS.any (fun k => subStr k (lowerStr html))) = true)
    ∧ (∀ s : DVSASignal, s = .captchaDetected)
    ∧ (∀ (cfg : Config) (portal : Portal) (pause : Nat → Bool) (row : Job)
         (centre : String) (w : World) (pc : Nat),
        pause pc = false → pause (pc + 1) = false →
        global_allowed w.now w.health = true →
        centre_allowed w.now w.health centre = true →
        portal centre 1 = .captcha →
        (dvsa_check_centre cfg portal pause row centre w pc).outcome = .captchaRaised
        ∧ (dvsa_check_centre cfg portal pause row centre w pc).w.health
            = global_cooldown cfg w.now (centre_fail cfg w.now w.health centre)
        ∧ (dvsa_check_centre cfg portal pause row centre w pc).notes
            = (if w.now - alertLookup w.alerts (session_base row) < 600 then []
               else ["captcha_alert:" ++ session_base row])
        ∧ (dvsa_check_centre cfg portal pause row centre w pc).events
            = ["login_start:" ++ centre, "captcha_cooldown:" ++ centre]) := by
  refine ⟨?_, fun s => by cases s; rfl, ?_⟩
  · unfold _captcha_guard
    by_cases h : (CAPTCHA_INDICATORS.any (fun k => subStr k (lowerStr html))) = true <;>
      simp [h]
  · intro cfg portal pause row centre w pc hp1 hp2 hg hc hcap
    rw [dvsa_check_centre_captcha cfg portal pause row centre w pc hp1 hp2 hg hc hcap]
    exact ⟨rfl, rfl, rfl, rfl⟩

/-- Witness for C9 (amended) at concrete inputs. -/
theorem C9_single_signal_amended_witness :
    _captcha_guard "tick the recaptcha box" = some .captchaDetected
    ∧ (dvsa_check_centre {} (fun _ _ => .captcha) (fun _ => false) jobNew "alpha"
        { now := 1000 } 0).w.health
      = global_cooldown {} 1000 (centre_fail {} 1000 [] "alpha") := by
  have h := C9_single_signal_amended "tick the recaptcha box"
  refine ⟨h.1.mpr (by decide), ?_⟩
  exact (h.2.2 {} (fun _ _ => .captcha) (fun _ => false) jobNew "alpha"
    { now := 1000 } 0 rfl rfl rfl rfl rfl).2.1

/-! ### C7: slot-signature dedup -/

theorem sigSet_find (m : List (Nat × String)) (k : Nat) (v : String) :
    ((sigSet m k v).find? (fun p => p.1 == k)).map (·.2) = some v := by
  induction m with
  | nil => simp [sigSet, List.find?]
  | cons p rest ih =>
    obtain ⟨k0, v0⟩ := p
    by_cases h : k0 = k
    · subst h; simp [sigSet, List.find?]
    · have hb : (k0 == k) = false := by simpa using h
      simpa [sigSet, hb, List.find?] using ih

theorem get_save_slot_sig (w : World) (sid : Nat) (s : String) :
    get_last_slot_sig (save_last_slot_sig w sid s) sid = some s := by
  simpa [get_last_slot_sig, save_last_slot_sig] using sigSet_find w.sigs sid s

theorem set_status_effects_queued (row : Job) : set_status_effects row "queued" = [] := by
  by_cases h : row.booking_type == "new" <;> simp [set_status_effects, h]

/-- **C7.**  For every Job, when the pass ends with a found slot: if the
slot equals the Job's stored last slot signature, no outward "found"
effect occurs — the status transition is `queued` (not `found`) with a
`slot_unchanged` event, no WhatsApp alert is added, no auto-book call is
made, and the stored signature (indeed the whole worker state) is
unchanged — so two consecutive observations of an identical signature
produce at most one outward effect; if the slot differs from the stored
signature, the signature is overwritten with the new one. -/
theorem C7_slot_dedup (cfg : Config) (pause : Nat → Bool) (book : Bool) (row : Job)
    (st : PassState) (slot : String)
    (hp : pause st.pc = false) (hcap : st.captcha = false)
    (hf : st.found = some slot) :
    (get_last_slot_sig st.w row.id = some slot →
      ∃ res, finish_pass cfg pause true book row st = .ok res
        ∧ res.statusSet = some ("queued", "slot_unchanged:" ++ (st.lastChecked.getD ""))
        ∧ res.w = st.w
        ∧ res.notes = st.notes
        ∧ res.bookCalls = [])
    ∧ (get_last_slot_sig st.w row.id ≠ some slot →
      ∃ res, finish_pass cfg pause true book row st = .ok res
        ∧ get_last_slot_sig res.w row.id = some slot) := by
  constructor
  · intro h
    have hb : (get_last_slot_sig st.w row.id == some slot) = true := by
      simp [h]
    simp [finish_pass, hp, hcap, hf, hb, set_status_effects_queued]
  · intro h
    have hb : (get_last_slot_sig st.w row.id == some slot) = false := by
      simpa using h
    by_cases hab : (cfg.AUTOBOOK_ENABLED && row.auto_book) = true
    · cases book <;>
        simp [finish_pass, hp, hcap, hf, hb, hab, get_save_slot_sig]
    · have hab' : (cfg.AUTOBOOK_ENABLED && row.auto_book) = false := by
        simpa using hab
      simp [finish_pass, hp, hcap, hf, hb, hab', get_save_slot_sig]

/-- Witness for C7 at concrete inputs (stored signature "slotX" equal to
the found slot on one state; a fresh state with no stored signature on
the other). -/
theorem C7_slot_dedup_witness :
    (∃ res, finish_pass {} (fun _ => false) true false jobNew
        { found := some "slotX", lastChecked := some "alpha",
          w := { sigs := [(7, "slotX")] }, pc := 0 } = .ok res
      ∧ res.statusSet = some ("queued", "slot_unchanged:alpha")
      ∧ res.w = { sigs := [(7, "slotX")] }
      ∧ res.notes = []
      ∧ res.bookCalls = [])
    ∧ (∃ res, finish_pass {} (fun _ => false) true false jobNew
        { found := some "slotX", lastChecked := some "alpha",
          w := { sigs := [] }, pc := 0 } = .ok res
      ∧ get_last_slot_sig res.w 7 = some "slotX") := by
  constructor
  · have h := (C7_slot_dedup {} (fun _ => false) false jobNew
      { found := some "slotX", lastChecked := some "alpha",
        w := { sigs := [(7, "slotX")] }, pc := 0 } "slotX" rfl rfl rfl).1 rfl
    simpa using h
  · have h := (C7_slot_dedup {} (fun _ => false) false jobNew
      { found := some "slotX", lastChecked := some "alpha",
        w := { sigs := [] }, pc := 0 } "slotX" rfl rfl rfl).2 (by decide)
    simpa using h

/-! ### C6: stale-lease reclaim -/

/-- The first two characters of a string, used to separate the finitely
many event-string shapes. -/
def take2 (s : String) : List Char := s.data.take 2

theorem take2_append (a b : String) (c1 c2 : Char) (cs : List Char)
    (ha : a.data = c1 :: c2 :: cs) : take2 (a ++ b) = [c1, c2] := by
  unfold take2
  rw [String.data_append, ha]
  rfl

theorem take2_staleEvt (cfg : Config) : take2 (staleEvt cfg) = ['s', 't'] := by
  unfold staleEvt
  rw [String.append_assoc]
  exact take2_append "stale_skipped:>" _ 's' 't' _ rfl

theorem staleEvt_ne (cfg : Config) (e : String) (he : take2 e ≠ ['s', 't']) :
    e ≠ staleEvt cfg :=
  fun h => he (by rw [h, take2_staleEvt])

/-- Every event a successful `finish_pass` can set starts with one of
five two-character shapes, none of which is the `st` of the stale
annotation. -/
theorem finish_pass_take2 (cfg : Config) (pause : Nat → Bool) (apiOk book : Bool)
    (row : Job) (st : PassState) (res : ProcResult)
    (h : finish_pass cfg pause apiOk book row st = .ok res) :
    ∀ s e, res.statusSet = some (s, e) →
      take2 e = ['p', 'a'] ∨ take2 e = ['c', 'a'] ∨ take2 e = ['n', 'o']
      ∨ take2 e = ['s', 'l'] ∨ take2 e = ['b', 'o'] := by
  intro s e hse
  simp only [finish_pass] at h
  split at h
  · split at h
    · cases h; simp at hse
      rcases hse with ⟨h1, h2⟩
      subst h2; left; decide
    · cases h
  · split at h
    · split at h
      · cases h; simp at hse
        rcases hse with ⟨h1, h2⟩
        subst h2
        right; left
        exact take2_append "captcha_cooldown:" _ 'c' 'a' _ rfl
      · cases h
    · split at h
      · split at h
        · cases h; simp at hse
          rcases hse with ⟨h1, h2⟩
          subst h2
          right; right; left
          exact take2_append "no_slots_this_round:" _ 'n' 'o' _ rfl
        · cases h
      · split at h
        · split at h
          · cases h; simp at hse
            rcases hse with ⟨h1, h2⟩
            subst h2
            right; right; right; left
            exact take2_append "slot_unchanged:" _ 's' 'l' _ rfl
          · cases h
        · split at h
          · split at h
            · split at h
              · cases h; simp at hse
                rcases hse with ⟨h1, h2⟩
                subst h2
                right; right; right; right
                exact take2_append "booked:" _ 'b' 'o' _ rfl
              · cases h
            · split at h
              · cases h; simp at hse
                rcases hse with ⟨h1, h2⟩
                subst h2
                right; right; right; right
                exact take2_append "booking_failed:" _ 'b' 'o' _ rfl
              · cases h
          · split at h
            · cases h; simp at hse
              rcases hse with ⟨h1, h2⟩
              subst h2
              right; right; right; left
              exact take2_append "slot_found:" _ 's' 'l' _ rfl
            · cases h

/-- **C6.**  (a) A fetched Job in `searching` whose last-update timestamp
(`updated_at`, falling back to `created_at`) is older than
`STALE_MINUTES` is set back to `queued` with the stale annotation before
any automation work: the result records no credential event, no
attempted resource, no portal call, and an unchanged world.  (b) A Job
not in `searching`, or whose last update is within the window, is never
requeued with the stale annotation, whatever the portal does. -/
theorem C6_stale_reclaim (cfg : Config) (portal : Portal)
    (rand : Nat → Nat → Nat → Nat) (pause : Nat → Bool) (book : Bool)
    (row : Job) (w : World) :
    (pause 0 = false →
      (trimStr row.status == "searching") = true →
      _is_stale w.now (row.updated_at.or row.created_at) cfg.STALE_MINUTES = true →
      process_job cfg portal rand pause true book row w
        = .ok { statusSet := some ("queued", staleEvt cfg), w := w })
    ∧ ((trimStr row.status == "searching"
        && _is_stale w.now (row.updated_at.or row.created_at) cfg.STALE_MINUTES) = false →
      ∀ (apiOk : Bool) (res : ProcResult),
        process_job cfg portal rand pause apiOk book row w = .ok res →
        ∀ s, res.statusSet ≠ some (s, staleEvt cfg)) := by
  constructor
  · intro hp hsearch hstale
    simp [process_job, hp, hsearch, hstale]
  · intro hcond apiOk res h s hset
    have hfin : ∀ (st : PassState),
        finish_pass cfg pause apiOk book row st = .ok res → False := by
      intro st hf
      have h5 := finish_pass_take2 _ _ _ _ _ _ _ hf s (staleEvt cfg) hset
      rw [take2_staleEvt cfg] at h5
      rcases h5 with h5 | h5 | h5 | h5 | h5 <;> exact absurd h5 (by decide)
    simp only [process_job] at h
    split at h
    · cases h
      by_cases hA : apiOk <;> simp [hA] at hset
      exact staleEvt_ne cfg "paused:global" (by decide) hset.2
    · rw [hcond] at h
      simp only [Bool.false_eq_true, if_false] at h
      split at h
      · rename_i reason hreason
        split at h
        · cases h
          simp at hset
          have h2 := hset.2
          simp only [_missing_required_fields] at hreason
          split at hreason
          · cases hreason
            exact staleEvt_ne cfg "missing_licence_number" (by decide) h2
          · split at hreason
            · cases hreason
              exact staleEvt_ne cfg "missing_or_bad_booking_reference" (by decide) h2
            · cases hreason
        · cases h
      · repeat' split at h
        all_goals exact hfin _ h

/-- Witness for C6: a stale `searching` job is requeued with the stale
annotation and no automation work; the same job with a fresh timestamp
is not. -/
theorem C6_stale_reclaim_witness :
    process_job {} (fun _ _ => .slots ["s"]) (fun _ _ _ => 0) (fun _ => false) true false
        { jobNew with status := "searching", updated_at := some (.valid 0) }
        { now := 1000 }
      = .ok { statusSet := some ("queued", staleEvt {}), w := { now := 1000 } }
    ∧ (∀ res, process_job {} (fun _ _ => .slots ["s"]) (fun _ _ _ => 0) (fun _ => false) true false
        { jobNew with status := "searching", updated_at := some (.valid 900) }
        { now := 1000 } = .ok res →
        ∀ s, res.statusSet ≠ some (s, staleEvt {})) := by
  constructor
  · exact (C6_stale_reclaim {} (fun _ _ => .slots ["s"]) (fun _ _ _ => 0) (fun _ => false) false
      { jobNew with status := "searching", updated_at := some (.valid 0) }
      { now := 1000 }).1 rfl (by decide) (by decide)
  · intro res h s
    exact (C6_stale_reclaim {} (fun _ _ => .slots ["s"]) (fun _ _ _ => 0) (fun _ => false) false
      { jobNew with status := "searching", updated_at := some (.valid 900) }
      { now := 1000 }).2 (by decide) true res h s

/-! ### Structural lemmas about the resource pass -/

/-- A pass has stopped once a slot was found or a captcha was hit. -/
def PassState.stopped (st : PassState) : Bool :=
  st.found.isSome || st.captcha

theorem check_one_stopped (cfg : Config) (portal : Portal) (pause : Nat → Bool)
    (row : Job) (st : PassState) (c : String) (h : st.stopped = true) :
    check_one cfg portal pause row st c = { st with pc := st.pc + 1 } := by
  unfold PassState.stopped at h
  by_cases hp : pause st.pc <;> simp [check_one, hp, h]

theorem runPass_stopped (cfg : Config) (portal : Portal) (pause : Nat → Bool)
    (row : Job) (cs : List String) :
    ∀ st : PassState, st.stopped = true →
      runPass cfg portal pause row st cs = { st with pc := st.pc + cs.length } := by
  induction cs with
  | nil => intro st h; simp [runPass]
  | cons c rest ih =>
    intro st h
    have h1 := check_one_stopped cfg portal pause row st c h
    have h2 : ({ st with pc := st.pc + 1 } : PassState).stopped = true := h
    calc runPass cfg portal pause row st (c :: rest)
        = runPass cfg portal pause row (check_one cfg portal pause row st c) rest := by
          simp [runPass, List.foldl_cons]
      _ = { st with pc := st.pc + 1 + rest.length } := by rw [h1, ih _ h2]
      _ = { st with pc := st.pc + (c :: rest).length } := by
          simp [List.length_cons]; omega

theorem check_one_paused (cfg : Config) (portal : Portal) (pause : Nat → Bool)
    (row : Job) (st : PassState) (c : String) (h : pause st.pc = true) :
    check_one cfg portal pause row st c = { st with pc := st.pc + 1 } := by
  simp [check_one, h]

theorem runPass_paused (cfg : Config) (portal : Portal) (pause : Nat → Bool)
    (row : Job) (cs : List String) :
    ∀ st : PassState, (∀ i, st.pc ≤ i → pause i = true) →
      runPass cfg portal pause row st cs = { st with pc := st.pc + cs.length } := by
  induction cs with
  | nil => intro st _; simp [runPass]
  | cons c rest ih =>
    intro st h
    have h1 := check_one_paused cfg portal pause row st c (h st.pc le_rfl)
    have h2 : ∀ i, ({ st with pc := st.pc + 1 } : PassState).pc ≤ i → pause i = true :=
      fun i hi => h i (by simp at hi; omega)
    calc runPass cfg portal pause row st (c :: rest)
        = runPass cfg portal pause row (check_one cfg portal pause row st c) rest := by
          simp [runPass, List.foldl_cons]
      _ = { st with pc := st.pc + 1 + rest.length } := by rw [h1, ih _ h2]
      _ = { st with pc := st.pc + (c :: rest).length } := by
          simp [List.length_cons]; omega

/-- A centre at which the portal never finds a slot and never raises a
captcha (every attempt yields an empty slot list or a generic failure). -/
def quietCentre (portal : Portal) (c : String) : Prop :=
  ∀ a, portal c a = .slots [] ∨ ∃ b, portal c a = .failure b

theorem dvsa_attempts_quiet (cfg : Config) (portal : Portal) (row : Job) (c : String)
    (hq : quietCentre portal c) :
    ∀ (rem att : Nat) (w : World),
      ((dvsa_attempts cfg portal row c rem att w).outcome = .gotSlots []
        ∨ (dvsa_attempts cfg portal row c rem att w).outcome = .gaveUp)
      ∧ (dvsa_attempts cfg portal row c rem att w).notes = []
      ∧ (dvsa_attempts cfg portal row c rem att w).w.now = w.now
      ∧ (dvsa_attempts cfg portal row c rem att w).w.alerts = w.alerts
      ∧ (dvsa_attempts cfg portal row c rem att w).w.sigs = w.sigs
      ∧ ∀ k, k ≠ c →
          lookupRow (dvsa_attempts cfg portal row c rem att w).w.health k
            = lookupRow w.health k := by
  intro rem
  induction rem with
  | zero => intro att w; simp [dvsa_attempts]
  | succ n ih =>
    intro att w
    rcases hq att with hs | ⟨b, hf⟩
    · simp [dvsa_attempts, hs]
    · by_cases hn : (n == 0) = true
      · simp [dvsa_attempts, hf, hn]
        intro k hk
        exact centre_fail_lookup_ne cfg w.now w.health c k hk
      · have hn' : (n == 0) = false := by simpa using hn
        have := ih (att + 1) w
        simp [dvsa_attempts, hf, hn'] at this ⊢
        exact this

theorem check_one_quiet (cfg : Config) (portal : Portal) (pause : Nat → Bool)
    (row : Job) (st : PassState) (c : String)
    (hpf : ∀ i, pause i = false)
    (hq : quietCentre portal c)
    (hcap : st.captcha = false) (hf : st.found = none) :
    (check_one cfg portal pause row st c).captcha = false
    ∧ (check_one cfg portal pause row st c).found = none
    ∧ (check_one cfg portal pause row st c).attempted = st.attempted ++ [c]
    ∧ (check_one cfg portal pause row st c).notes = st.notes
    ∧ (check_one cfg portal pause row st c).w.now = st.w.now
    ∧ (check_one cfg portal pause row st c).w.alerts = st.w.alerts
    ∧ (check_one cfg portal pause row st c).w.sigs = st.w.sigs
    ∧ ∀ k, k ≠ c →
        lookupRow (check_one cfg portal pause row st c).w.health k
          = lookupRow st.w.health k := by
  have hstop : (st.found.isSome || st.captcha) = false := by simp [hcap, hf]
  unfold check_one
  rw [hpf st.pc]
  simp only [Bool.false_eq_true, if_false, hstop]
  unfold dvsa_check_centre
  rw [hpf (st.pc + 1)]
  by_cases hro : (row.last_event == "resume_now") = true
  · -- resume override skips the cooldown gates
    rw [hpf (st.pc + 1 + 1)]
    simp only [hro, Bool.not_true, Bool.false_and, Bool.false_eq_true, if_false]
    have hatt := dvsa_attempts_quiet cfg portal row c hq 5 1 st.w
    rcases hatt.1 with ho | ho <;>
      simp_all
  · have hro' : (row.last_event == "resume_now") = false := by simpa using hro
    by_cases hga : global_allowed st.w.now st.w.health = true
    · by_cases hca : centre_allowed st.w.now st.w.health c = true
      · rw [hpf (st.pc + 1 + 1)]
        simp only [hro', Bool.not_false, Bool.true_and, hga, hca, Bool.not_true,
          Bool.false_eq_true, if_false]
        have hatt := dvsa_attempts_quiet cfg portal row c hq 5 1 st.w
        rcases hatt.1 with ho | ho <;>
          simp_all
      · have hca' : centre_allowed st.w.now st.w.health c = false := by simpa using hca
        simp_all
    · have hga' : global_allowed st.w.now st.w.health = false := by simpa using hga
      simp_all

theorem runPass_quiet (cfg : Config) (portal : Portal) (pause : Nat → Bool)
    (row : Job) (cs : List String)
    (hpf : ∀ i, pause i = false) :
    ∀ st : PassState, (∀ c ∈ cs, quietCentre portal c) →
      st.captcha = false → st.found = none →
      (runPass cfg portal pause row st cs).captcha = false
      ∧ (runPass cfg portal pause row st cs).found = none
      ∧ (runPass cfg portal pause row st cs).attempted = st.attempted ++ cs
      ∧ (runPass cfg portal pause row st cs).notes = st.notes
      ∧ (runPass cfg portal pause row st cs).w.now = st.w.now
      ∧ (runPass cfg portal pause row st cs).w.alerts = st.w.alerts
      ∧ (runPass cfg portal pause row st cs).w.sigs = st.w.sigs
      ∧ ∀ k, k ∉ cs →
          lookupRow (runPass cfg portal pause row st cs).w.health k
            = lookupRow st.w.health k := by
  induction cs with
  | nil => intro st _ hcap hf; simp [runPass, hcap, hf]
  | cons c rest ih =>
    intro st hq hcap hf
    have h1 := check_one_quiet cfg portal pause row st c hpf (hq c (by simp)) hcap hf
    have hrest : ∀ c' ∈ rest, quietCentre portal c' := fun c' hc' => hq c' (by simp [hc'])
    have h2 := ih (check_one cfg portal pause row st c) hrest h1.1 h1.2.1
    have hstep : runPass cfg portal pause row st (c :: rest)
        = runPass cfg portal pause row (check_one cfg portal pause row st c) rest := by
      simp [runPass, List.foldl_cons]
    rw [hstep]
    refine ⟨h2.1, h2.2.1, ?_, ?_, ?_, ?_, ?_, ?_⟩
    · rw [h2.2.2.1, h1.2.2.1]; simp
    · rw [h2.2.2.2.1, h1.2.2.2.1]
    · rw [h2.2.2.2.2.1, h1.2.2.2.2.1]
    · rw [h2.2.2.2.2.2.1, h1.2.2.2.2.2.1]
    · rw [h2.2.2.2.2.2.2.1, h1.2.2.2.2.2.2.1]
    · intro k hk
      have hk1 : k ∉ rest := fun hh => hk (by simp [hh])
      have hk2 : k ≠ c := fun hh => hk (by simp [hh])
      rw [h2.2.2.2.2.2.2.2 k hk1, h1.2.2.2.2.2.2.2 k hk2]

/-- The debounced-notification list produced by a captcha hit. -/
def captchaNotes (row : Job) (now : Int) (alerts : AlertMap) : List String :=
  if now - alertLookup alerts (session_base row) < 600 then []
  else ["captcha_alert:" ++ session_base row]

theorem check_one_captcha (cfg : Config) (portal : Portal) (pause : Nat → Bool)
    (row : Job) (st : PassState) (c : String)
    (hpf : ∀ i, pause i = false)
    (hcap : st.captcha = false) (hf : st.found = none)
    (hg : lookupRow st.w.health globalKey = none)
    (hc : lookupRow st.w.health c = none)
    (hpc : portal c 1 = .captcha) :
    check_one cfg portal pause row st c
      = { st with
          captcha := true
          lastChecked := some c
          attempted := st.attempted ++ [c]
          events := st.events ++ ["trying:" ++ c]
            ++ ["login_start:" ++ c, "captcha_cooldown:" ++ c]
          notes := st.notes ++ captchaNotes row st.w.now st.w.alerts
          calls := st.calls ++ [(c, 1)]
          w := { st.w with
              health := global_cooldown cfg st.w.now (centre_fail cfg st.w.now st.w.health c)
              alerts := (send_captcha_alert st.w.now st.w.alerts row).2 }
          pc := st.pc + 1 + 2 } := by
  have hstop : (st.found.isSome || st.captcha) = false := by simp [hcap, hf]
  have hga : global_allowed st.w.now st.w.health = true := by
    simp [global_allowed, hg, cooldownOk]
  have hca : centre_allowed st.w.now st.w.health c = true := by
    simp [centre_allowed, hc, cooldownOk]
  have hdc := dvsa_check_centre_captcha cfg portal pause row c st.w (st.pc + 1)
    (hpf _) (hpf _) hga hca hpc
  unfold check_one
  rw [hpf st.pc]
  simp only [Bool.false_eq_true, if_false, hstop, hdc]
  simp [captchaNotes]

/-- Behaviour of a pass over `pre ++ target :: post` when every centre in
`pre` is quiet and the portal raises a captcha on the first attempt at
`target`: the pass attempts exactly `pre ++ [target]`, ends with
`captcha_hit`, leaves the global-cooldown row stamped, sends at most the
one debounced alert, and never touches `post`. -/
theorem runPass_captcha_at (cfg : Config) (portal : Portal) (pause : Nat → Bool)
    (row : Job) (pre post : List String) (target : String)
    (hpf : ∀ i, pause i = false)
    (hq : ∀ c ∈ pre, quietCentre portal c)
    (hnt : target ∉ pre) (hgp : globalKey ∉ pre) (hgt : target ≠ globalKey)
    (hpc : portal target 1 = .captcha) :
    ∀ st : PassState, st.captcha = false → st.found = none →
      lookupRow st.w.health globalKey = none →
      lookupRow st.w.health target = none →
      (runPass cfg portal pause row st (pre ++ target :: post)).captcha = true
      ∧ (runPass cfg portal pause row st (pre ++ target :: post)).found = none
      ∧ (runPass cfg portal pause row st (pre ++ target :: post)).attempted
          = st.attempted ++ pre ++ [target]
      ∧ (runPass cfg portal pause row st (pre ++ target :: post)).lastChecked = some target
      ∧ lookupRow (runPass cfg portal pause row st (pre ++ target :: post)).w.health globalKey
          = some ⟨0, some (.valid (st.w.now + 60 * max 1 cfg.CAPTCHA_COOLDOWN_MIN))⟩
      ∧ (runPass cfg portal pause row st (pre ++ target :: post)).w.now = st.w.now
      ∧ (runPass cfg portal pause row st (pre ++ target :: post)).notes
          = st.notes ++ captchaNotes row st.w.now st.w.alerts
      ∧ (runPass cfg portal pause row st (pre ++ target :: post)).events.getLast? =
          some ("captcha_cooldown:" ++ target) := by
  intro st hcap hf hg ht
  have hsplit : runPass cfg portal pause row st (pre ++ target :: post)
      = runPass cfg portal pause row
          (runPass cfg portal pause row st pre) (target :: post) := by
    simp [runPass, List.foldl_append]
  have hQ := runPass_quiet cfg portal pause row pre hpf st hq hcap hf
  set stQ := runPass cfg portal pause row st pre with hstQ
  have hgQ : lookupRow stQ.w.health globalKey = none := by
    rw [hQ.2.2.2.2.2.2.2 globalKey hgp]; exact hg
  have htQ : lookupRow stQ.w.health target = none := by
    rw [hQ.2.2.2.2.2.2.2 target hnt]; exact ht
  have hC := check_one_captcha cfg portal pause row stQ target hpf hQ.1 hQ.2.1 hgQ htQ hpc
  set stC := check_one cfg portal pause row stQ target with hstC
  have hCstop : stC.stopped = true := by rw [hC]; simp [PassState.stopped]
  have hpost := runPass_stopped cfg portal pause row post stC hCstop
  have hrw : runPass cfg portal pause row st (pre ++ target :: post)
      = { stC with pc := stC.pc + post.length } := by
    rw [hsplit]
    show runPass cfg portal pause row stQ (target :: post) = _
    rw [runPass, List.foldl_cons, ← hstC]
    exact hpost
  have hgF : lookupRow
      (global_cooldown cfg stQ.w.now (centre_fail cfg stQ.w.now stQ.w.health target))
      globalKey = some ⟨0, some (.valid (stQ.w.now + 60 * max 1 cfg.CAPTCHA_COOLDOWN_MIN))⟩ := by
    apply global_cooldown_lookup_none
    rw [centre_fail_lookup_ne cfg stQ.w.now stQ.w.health target globalKey (Ne.symm hgt)]
    exact hgQ
  rw [hrw, hC]
  refine ⟨rfl, hQ.2.1, ?att, rfl, ?glob, hQ.2.2.2.2.1, ?notes, ?last⟩
  case att => rw [hQ.2.2.1]
  case glob => simpa [hQ.2.2.2.2.1] using hgF
  case notes => simp [hQ.2.2.2.1, hQ.2.2.2.2.1, hQ.2.2.2.2.2.1]
  case last => simp

/-! ### C1: a captcha halts the pass, cools down globally, debounces -/

/-- The full potential resource order of a pass: the priority split of
the normalised centres, then the remainder shuffled with the Job id as
seed. -/
def passOrder (cfg : Config) (rand : Nat → Nat → Nat → Nat) (row : Job) : List String :=
  let centres0 := normalize_centres row.centres
  let centres := if centres0.isEmpty then ["(no centre provided)"] else centres0
  (prioritySplit cfg centres).1 ++ pyShuffle rand row.id (prioritySplit cfg centres).2

theorem finish_pass_captcha (cfg : Config) (pause : Nat → Bool) (book : Bool)
    (row : Job) (st : PassState)
    (hp : pause st.pc = false) (hcap : st.captcha = true) :
    finish_pass cfg pause true book row st
      = .ok { statusSet := some ("queued", "captcha_cooldown:" ++ (st.lastChecked.getD "")),
              attempted := st.attempted, events := st.events, notes := st.notes,
              calls := st.calls, bookCalls := [], w := st.w } := by
  simp [finish_pass, hp, hcap, set_status_effects_queued]

theorem global_allowed_until (t u : Int) (db : HealthDB) (fc : Nat)
    (h : lookupRow db globalKey = some ⟨fc, some (.valid u)⟩) (hlt : t < u) :
    global_allowed t db = false := by
  simp only [global_allowed, h, cooldownOk, parseIso, decide_eq_false_iff_not]
  omega

theorem dvsa_check_centre_global_skip (cfg : Config) (portal : Portal)
    (pause : Nat → Bool) (row : Job) (centre : String) (w : World) (pc : Nat)
    (hp : pause pc = false) (hro : (row.last_event == "resume_now") = false)
    (hga : global_allowed w.now w.health = false) :
    dvsa_check_centre cfg portal pause row centre w pc
      = ⟨.skipGlobal, ["cooldown_skip:*global*"], [], [], w, pc + 1⟩ := by
  simp [dvsa_check_centre, hp, hro, hga]

/-- **C1.**  If, with the global pause off, a challenge wall
(`CaptchaDetected`) is raised at resource `target` of the pass order
(every earlier resource being one at which the portal neither finds a
slot nor raises a captcha), then in the same pass: no further resource
is attempted (`attempted = pre ++ [target]`); the job's status is set to
`queued` with event `captcha_cooldown:<target>` (also the last
breadcrumb); the `*global*` cooldown row is stamped
`now + CAPTCHA_COOLDOWN_MIN` minutes, under which `dvsa_check_centre`
skips **every** resource for **any** job until the cooldown elapses; and
at most one human notification fires, none at all when the same
credential identity was alerted within the last 600 s. -/
theorem C1_captcha_halts_pass (cfg : Config) (portal : Portal)
    (rand : Nat → Nat → Nat → Nat) (pause : Nat → Bool) (book : Bool)
    (row : Job) (w : World) (pre post : List String) (target : String)
    (hpf : ∀ i, pause i = false)
    (hccm : 1 ≤ cfg.CAPTCHA_COOLDOWN_MIN)
    (hns : (trimStr row.status == "searching"
        && _is_stale w.now (row.updated_at.or row.created_at) cfg.STALE_MINUTES) = false)
    (hmf : _missing_required_fields row = none)
    (horder : passOrder cfg rand row = pre ++ target :: post)
    (hq : ∀ c ∈ pre, quietCentre portal c)
    (hnt : target ∉ pre) (hgp : globalKey ∉ pre) (hgt : target ≠ globalKey)
    (hg0 : lookupRow w.health globalKey = none)
    (ht0 : lookupRow w.health target = none)
    (hpc : portal target 1 = .captcha) :
    ∃ res, process_job cfg portal rand pause true book row w = .ok res
      ∧ res.attempted = pre ++ [target]
      ∧ res.statusSet = some ("queued", "captcha_cooldown:" ++ target)
      ∧ res.events.getLast? = some ("captcha_cooldown:" ++ target)
      ∧ lookupRow res.w.health globalKey
          = some ⟨0, some (.valid (w.now + 60 * cfg.CAPTCHA_COOLDOWN_MIN))⟩
      ∧ (∀ (t : Int) (c2 : String) (row2 : Job) (pc2 : Nat) (pause2 : Nat → Bool),
          t < w.now + 60 * cfg.CAPTCHA_COOLDOWN_MIN →
          (row2.last_event == "resume_now") = false →
          pause2 pc2 = false →
          dvsa_check_centre cfg portal pause2 row2 c2 { res.w with now := t } pc2
            = ⟨.skipGlobal, ["cooldown_skip:*global*"], [], [], { res.w with now := t },
               pc2 + 1⟩)
      ∧ res.notes = captchaNotes row w.now w.alerts
      ∧ res.notes.length ≤ 1
      ∧ (w.now - alertLookup w.alerts (session_base row) < 600 → res.notes = []) := by
  have hmax : max 1 cfg.CAPTCHA_COOLDOWN_MIN = cfg.CAPTCHA_COOLDOWN_MIN :=
    max_eq_right hccm
  -- shared wrap-up once the final pass state is known to be a captcha state
  have wrapup : ∀ st : PassState,
      st.captcha = true → st.found = none →
      st.attempted = pre ++ [target] → st.lastChecked = some target →
      lookupRow st.w.health globalKey
        = some ⟨0, some (.valid (w.now + 60 * max 1 cfg.CAPTCHA_COOLDOWN_MIN))⟩ →
      st.w.now = w.now →
      st.notes = captchaNotes row w.now w.alerts →
      st.events.getLast? = some ("captcha_cooldown:" ++ target) →
      ∃ res, finish_pass cfg pause true book row st = .ok res
        ∧ res.attempted = pre ++ [target]
        ∧ res.statusSet = some ("queued", "captcha_cooldown:" ++ target)
        ∧ res.events.getLast? = some ("captcha_cooldown:" ++ target)
        ∧ lookupRow res.w.health globalKey
            = some ⟨0, some (.valid (w.now + 60 * cfg.CAPTCHA_COOLDOWN_MIN))⟩
        ∧ (∀ (t : Int) (c2 : String) (row2 : Job) (pc2 : Nat) (pause2 : Nat → Bool),
            t < w.now + 60 * cfg.CAPTCHA_COOLDOWN_MIN →
            (row2.last_event == "resume_now") = false →
            pause2 pc2 = false →
            dvsa_check_centre cfg portal pause2 row2 c2 { res.w with now := t } pc2
              = ⟨.skipGlobal, ["cooldown_skip:*global*"], [], [],
                 { res.w with now := t }, pc2 + 1⟩)
        ∧ res.notes = captchaNotes row w.now w.alerts
        ∧ res.notes.length ≤ 1
        ∧ (w.now - alertLookup w.alerts (session_base row) < 600 → res.notes = []) := by
    intro st hcap hfound hatt hlast hglob hnow hnotes hevl
    rw [hmax] at hglob
    refine ⟨_, finish_pass_captcha cfg pause book row st (hpf _) hcap, ?_⟩
    refine ⟨hatt, by rw [hlast]; rfl, hevl, hglob, ?_, hnotes, ?_, ?_⟩
    · intro t c2 row2 pc2 pause2 hlt hro hp2
      exact dvsa_check_centre_global_skip cfg portal pause2 row2 c2 _ pc2 hp2 hro
        (global_allowed_until t _ _ 0 hglob hlt)
    · rw [hnotes]
      unfold captchaNotes
      split <;> simp
    · intro hdeb
      rw [hnotes]
      simp [captchaNotes, hdeb]
  -- unfold process_job up to the pass
  have hp0 := hpf 0
  rcases List.append_eq_append_iff.mp horder with ⟨mid, hpre, hlow⟩ | ⟨mid, hhigh, hmid⟩
  · -- captcha sits in the shuffled remainder: the priority set is quiet
    set centres0 := normalize_centres row.centres with hc0
    set centres := if centres0.isEmpty then ["(no centre provided)"] else centres0 with hcs
    set high := (prioritySplit cfg centres).1 with hhigh
    set low' := pyShuffle rand row.id (prioritySplit cfg centres).2 with hlow'
    have hqhigh : ∀ c ∈ high, quietCentre portal c := by
      intro c hc
      exact hq c (by rw [hpre]; exact List.mem_append_left _ hc)
    have hGhigh : globalKey ∉ high := fun hh => hgp (by rw [hpre]; exact List.mem_append_left _ hh)
    have hThigh : target ∉ high := fun hh => hnt (by rw [hpre]; exact List.mem_append_left _ hh)
    have hqmid : ∀ c ∈ mid, quietCentre portal c := by
      intro c hc
      exact hq c (by rw [hpre]; exact List.mem_append_right _ hc)
    have hGmid : globalKey ∉ mid := fun hh => hgp (by rw [hpre]; exact List.mem_append_right _ hh)
    have hTmid : target ∉ mid := fun hh => hnt (by rw [hpre]; exact List.mem_append_right _ hh)
    have hQ := runPass_quiet cfg portal pause row high hpf
      { w := w, pc := 1 } hqhigh rfl rfl
    set st1 := runPass cfg portal pause row { w := w, pc := 1 } high with hst1
    have hcond : (st1.found.isNone && !st1.captcha) = true := by
      simp [hQ.1, hQ.2.1]
    have hg1 : lookupRow st1.w.health globalKey = none := by
      rw [hQ.2.2.2.2.2.2.2 globalKey hGhigh]; exact hg0
    have ht1 : lookupRow st1.w.health target = none := by
      rw [hQ.2.2.2.2.2.2.2 target hThigh]; exact ht0
    have hF := runPass_captcha_at cfg portal pause row mid post target hpf hqmid hTmid hGmid
      hgt hpc { st1 with pc := st1.pc + 1 } hQ.1 hQ.2.1 hg1 ht1
    rw [← hlow] at hF
    set stF := runPass cfg portal pause row { st1 with pc := st1.pc + 1 } low' with hstF
    have hres := wrapup stF hF.1 hF.2.1
      (by rw [hF.2.2.1]; simp [hQ.2.2.1, hpre, List.append_assoc])
      hF.2.2.2.1
      (by rw [hF.2.2.2.2.1]; simp [hQ.2.2.2.2.1])
      (by rw [hF.2.2.2.2.2.1]; simp [hQ.2.2.2.2.1])
      (by rw [hF.2.2.2.2.2.2.1]
          simp [hQ.2.2.2.1, hQ.2.2.2.2.1, hQ.2.2.2.2.2.1])
      hF.2.2.2.2.2.2.2
    obtain ⟨res, hfin, hrest⟩ := hres
    refine ⟨res, ?_, hrest⟩
    simp only [process_job, hp0, Bool.false_eq_true, if_false, hns, hmf]
    rw [← hc0, ← hcs]
    show (if ((runPass cfg portal pause row { w := w, pc := 1 } high).found.isNone
        && !(runPass cfg portal pause row { w := w, pc := 1 } high).captcha) = true then _
      else _) = _
    rw [← hst1, hcond]
    simp only [if_true]
    rw [hpf st1.pc]
    simp only [Bool.false_eq_true, if_false]
    rw [← hlow', ← hstF]
    exact hfin
  · -- captcha sits in the priority set
    cases mid with
    | nil =>
      -- the split fell exactly at the boundary: the priority set is all of pre
      set centres0 := normalize_centres row.centres with hc0
      set centres := if centres0.isEmpty then ["(no centre provided)"] else centres0 with hcs
      set high := (prioritySplit cfg centres).1 with hh
      set low' := pyShuffle rand row.id (prioritySplit cfg centres).2 with hl
      simp only [List.append_nil] at hhigh
      simp only [List.nil_append] at hmid
      have hqhigh : ∀ c ∈ high, quietCentre portal c := by
        rw [hhigh]; exact hq
      have hGhigh : globalKey ∉ high := by rw [hhigh]; exact hgp
      have hThigh : target ∉ high := by rw [hhigh]; exact hnt
      have hQ := runPass_quiet cfg portal pause row high hpf
        { w := w, pc := 1 } hqhigh rfl rfl
      set st1 := runPass cfg portal pause row { w := w, pc := 1 } high with hst1
      have hcond : (st1.found.isNone && !st1.captcha) = true := by
        simp [hQ.1, hQ.2.1]
      have hg1 : lookupRow st1.w.health globalKey = none := by
        rw [hQ.2.2.2.2.2.2.2 globalKey hGhigh]; exact hg0
      have ht1 : lookupRow st1.w.health target = none := by
        rw [hQ.2.2.2.2.2.2.2 target hThigh]; exact ht0
      have hF := runPass_captcha_at cfg portal pause row [] post target hpf
        (by intro c hc; cases hc) (by simp) (by simp)
        hgt hpc { st1 with pc := st1.pc + 1 } hQ.1 hQ.2.1 hg1 ht1
      rw [List.nil_append, hmid] at hF
      set stF := runPass cfg portal pause row { st1 with pc := st1.pc + 1 } low' with hstF
      have hres := wrapup stF hF.1 hF.2.1
        (by rw [hF.2.2.1]; simp [hQ.2.2.1, hhigh])
        hF.2.2.2.1
        (by rw [hF.2.2.2.2.1]; simp [hQ.2.2.2.2.1])
        (by rw [hF.2.2.2.2.2.1]; simp [hQ.2.2.2.2.1])
        (by rw [hF.2.2.2.2.2.2.1]
            simp [hQ.2.2.2.1, hQ.2.2.2.2.1, hQ.2.2.2.2.2.1])
        hF.2.2.2.2.2.2.2
      obtain ⟨res, hfin, hrest⟩ := hres
      refine ⟨res, ?_, hrest⟩
      simp only [process_job, hp0, Bool.false_eq_true, if_false, hns, hmf]
      rw [← hc0, ← hcs]
      show (if ((runPass cfg portal pause row { w := w, pc := 1 } high).found.isNone
          && !(runPass cfg portal pause row { w := w, pc := 1 } high).captcha) = true then _
        else _) = _
      rw [← hst1, hcond]
      simp only [if_true]
      rw [hpf st1.pc]
      simp only [Bool.false_eq_true, if_false]
      rw [← hl, ← hstF]
      exact hfin
    | cons t0 mid' =>
      -- the priority set itself is pre ++ target :: mid'
      set centres0 := normalize_centres row.centres with hc0
      set centres := if centres0.isEmpty then ["(no centre provided)"] else centres0 with hcs
      set high := (prioritySplit cfg centres).1 with hh
      set low' := pyShuffle rand row.id (prioritySplit cfg centres).2 with hl
      simp only [List.cons_append] at hmid
      injection hmid with h1 h2
      subst h1
      have hF := runPass_captcha_at cfg portal pause row pre mid' target hpf hq hnt hgp
        hgt hpc { w := w, pc := 1 } rfl rfl hg0 ht0
      rw [← hhigh] at hF
      set st1 := runPass cfg portal pause row { w := w, pc := 1 } high with hst1
      have hcond : (st1.found.isNone && !st1.captcha) = false := by
        simp [hF.1]
      have hres := wrapup st1 hF.1 hF.2.1
        (by rw [hF.2.2.1]; simp)
        hF.2.2.2.1
        (by rw [hF.2.2.2.2.1])
        hF.2.2.2.2.2.1
        (by rw [hF.2.2.2.2.2.2.1]; simp)
        hF.2.2.2.2.2.2.2
      obtain ⟨res, hfin, hrest⟩ := hres
      refine ⟨res, ?_, hrest⟩
      simp only [process_job, hp0, Bool.false_eq_true, if_false, hns, hmf]
      rw [← hc0, ← hcs]
      show (if ((runPass cfg portal pause row { w := w, pc := 1 } high).found.isNone
          && !(runPass cfg portal pause row { w := w, pc := 1 } high).captcha) = true then _
        else _) = _
      rw [← hst1, hcond]
      simp only [Bool.false_eq_true, if_false]
      exact hfin

/-- Witness for C1: priority set empty, remainder shuffled to
`["beta", "alpha"]` by the Job-id seed, captcha on the first resource
attempted; the alert map is empty and `now = 1000`, so the one
debounced notification fires. -/
theorem C1_captcha_halts_pass_witness :
    ∃ res, process_job {} (fun _ _ => PortalResult.captcha) (fun _ _ _ => 0)
        (fun _ => false) true false jobNew { now := 1000 } = .ok res
      ∧ res.attempted = ["beta"]
      ∧ res.statusSet = some ("queued", "captcha_cooldown:beta")
      ∧ lookupRow res.w.health globalKey = some ⟨0, some (.valid 2800)⟩
      ∧ res.notes = ["captcha_alert:ABCDE12345"] := by
  obtain ⟨res, h1, h2, h3, h4, h5, h6, h7, h8, h9⟩ :=
    C1_captcha_halts_pass {} (fun _ _ => PortalResult.captcha) (fun _ _ _ => 0)
      (fun _ => false) false jobNew { now := 1000 } [] ["alpha"] "beta"
      (fun _ => rfl) (by decide) (by decide) (by decide) (by decide)
      (fun c hc => nomatch hc) (by decide) (by decide) (by decide) rfl rfl rfl
  refine ⟨res, h1, by simpa using h2, ?_, ?_, ?_⟩
  · exact h3
  · exact h5
  · rw [h7]; decide

/-! ### C4: priority pass before shuffled remainder -/

theorem check_one_attempts (cfg : Config) (portal : Portal) (pause : Nat → Bool)
    (row : Job) (st : PassState) (c : String)
    (hp : pause st.pc = false) (hstop : st.stopped = false) :
    (check_one cfg portal pause row st c).attempted = st.attempted ++ [c] := by
  unfold PassState.stopped at hstop
  unfold check_one
  rw [hp]
  simp only [hstop, Bool.false_eq_true, if_false]
  cases hout : (dvsa_check_centre cfg portal pause row c st.w (st.pc + 1)).outcome <;>
    simp [hout]
  split <;> simp

theorem runPass_attempts (cfg : Config) (portal : Portal) (pause : Nat → Bool)
    (row : Job) (hpf : ∀ i, pause i = false) :
    ∀ (cs : List String) (st : PassState), st.stopped = false →
      ∃ k, k ≤ cs.length
        ∧ (runPass cfg portal pause row st cs).attempted = st.attempted ++ cs.take k
        ∧ ((runPass cfg portal pause row st cs).stopped = false → k = cs.length) := by
  intro cs
  induction cs with
  | nil =>
    intro st h
    exact ⟨0, by simp, by simp [runPass], fun _ => rfl⟩
  | cons c rest ih =>
    intro st hstop
    have hca := check_one_attempts cfg portal pause row st c (hpf _) hstop
    have hstep : runPass cfg portal pause row st (c :: rest)
        = runPass cfg portal pause row (check_one cfg portal pause row st c) rest := by
      simp [runPass, List.foldl_cons]
    set st' := check_one cfg portal pause row st c with hst'
    by_cases hs : st'.stopped = true
    · have hrp := runPass_stopped cfg portal pause row rest st' hs
      refine ⟨1, by simp, ?_, ?_⟩
      · rw [hstep, hrp]
        show st'.attempted = st.attempted ++ (c :: rest).take 1
        rw [hca]
        simp
      · intro hns
        rw [hstep, hrp] at hns
        have : st'.stopped = false := hns
        rw [hs] at this
        cases this
    · have hs' : st'.stopped = false := by simpa using hs
      obtain ⟨k, hk, hat, himp⟩ := ih st' hs'
      refine ⟨k + 1, by simp; omega, ?_, ?_⟩
      · rw [hstep, hat, hca]
        simp [List.take_succ_cons]
      · intro hns
        rw [hstep] at hns
        have := himp hns
        simp [this]

theorem finish_pass_ok (cfg : Config) (pause : Nat → Bool) (book : Bool)
    (row : Job) (st : PassState) :
    ∃ res, finish_pass cfg pause true book row st = .ok res
      ∧ res.attempted = st.attempted := by
  unfold finish_pass
  repeat' split
  all_goals
    first
      | exact ⟨_, rfl, rfl⟩
      | simp_all

/-- **C4.**  With the pause off and the guards passed: the attempted
resources of a pass always form a prefix of
`priority-set ++ shuffle(job-id, remainder-set)`; when the priority pass
stops early (slot found or captcha) the remainder is untouched; when the
priority pass completes with no slot and no captcha the whole priority
set is attempted first and the remainder is then attempted in exactly
the order of the deterministic per-Job shuffle (seeded by the Job id, so
the same Job id always yields the same remainder order). -/
theorem C4_priority_then_remainder (cfg : Config) (portal : Portal)
    (rand : Nat → Nat → Nat → Nat) (pause : Nat → Bool) (book : Bool)
    (row : Job) (w : World)
    (hpf : ∀ i, pause i = false)
    (hns : (trimStr row.status == "searching"
        && _is_stale w.now (row.updated_at.or row.created_at) cfg.STALE_MINUTES) = false)
    (hmf : _missing_required_fields row = none) :
    ∃ res, process_job cfg portal rand pause true book row w = .ok res
      ∧ (let centres0 := normalize_centres row.centres
         let centres := if centres0.isEmpty then ["(no centre provided)"] else centres0
         let high := (prioritySplit cfg centres).1
         let low' := pyShuffle rand row.id (prioritySplit cfg centres).2
         let st1 := runPass cfg portal pause row { w := w, pc := 1 } high
         (∃ k, res.attempted = (high ++ low').take k)
         ∧ ((st1.found.isNone && !st1.captcha) = true →
              ∃ k, res.attempted = high ++ low'.take k)
         ∧ ((st1.found.isNone && !st1.captcha) = false →
              ∃ k, k ≤ high.length ∧ res.attempted = high.take k)
         ∧ (∀ row2 : Job, row2.id = row.id →
              pyShuffle rand row2.id (prioritySplit cfg centres).2 = low')) := by
  have hp0 := hpf 0
  set centres0 := normalize_centres row.centres with hc0
  set centres := if centres0.isEmpty then ["(no centre provided)"] else centres0 with hcs
  set high := (prioritySplit cfg centres).1 with hh
  set low' := pyShuffle rand row.id (prioritySplit cfg centres).2 with hl
  have hst0 : ({ w := w, pc := 1 } : PassState).stopped = false := rfl
  obtain ⟨k1, hk1, hat1, himp1⟩ :=
    runPass_attempts cfg portal pause row hpf high { w := w, pc := 1 } hst0
  set st1 := runPass cfg portal pause row { w := w, pc := 1 } high with hst1
  have hunf : process_job cfg portal rand pause true book row w
      = (if (st1.found.isNone && !st1.captcha) = true then
          if pause st1.pc = true then
            finish_pass cfg pause true book row { st1 with pc := st1.pc + 1 }
          else
            finish_pass cfg pause true book row
              (runPass cfg portal pause row { st1 with pc := st1.pc + 1 } low')
        else finish_pass cfg pause true book row st1) := by
    simp only [process_job, hp0, Bool.false_eq_true, if_false, hns, hmf]
  have hat1' : st1.attempted = high.take k1 := hat1.trans (List.nil_append _)
  by_cases hcond : (st1.found.isNone && !st1.captcha) = true
  · -- priority pass completed quietly: the remainder runs
    have hst1stop : st1.stopped = false := by
      unfold PassState.stopped
      rcases Bool.and_eq_true .. |>.mp hcond with ⟨hf, hc⟩
      simp at hf hc
      simp [hf, hc]
    have hk1' := himp1 hst1stop
    have hat1'' : st1.attempted = high := by
      rw [hat1', hk1', List.take_length]
    have hst1stop' : ({ st1 with pc := st1.pc + 1 } : PassState).stopped = false := hst1stop
    obtain ⟨k2, hk2, hat2, _⟩ :=
      runPass_attempts cfg portal pause row hpf low' { st1 with pc := st1.pc + 1 } hst1stop'
    have hat2' : (runPass cfg portal pause row { st1 with pc := st1.pc + 1 } low').attempted
        = st1.attempted ++ low'.take k2 := hat2
    obtain ⟨res, hres, hresat⟩ := finish_pass_ok cfg pause book row
      (runPass cfg portal pause row { st1 with pc := st1.pc + 1 } low')
    refine ⟨res, ?_, ?_, ?_, ?_, ?_⟩
    · rw [hunf, hcond, hpf st1.pc]
      exact hres
    · refine ⟨high.length + k2, ?_⟩
      rw [hresat, hat2', hat1'', List.take_append_eq_append_take,
        @List.take_of_length_le _ (high.length + k2) high (by omega), Nat.add_sub_cancel_left]
    · intro _
      exact ⟨k2, by rw [hresat, hat2', hat1'']⟩
    · intro hcf
      rw [hcond] at hcf
      cases hcf
    · intro row2 h2
      rw [h2]
  · -- priority pass stopped: the remainder is untouched
    have hcond' : (st1.found.isNone && !st1.captcha) = false := by
      simpa using hcond
    obtain ⟨res, hres, hresat⟩ := finish_pass_ok cfg pause book row st1
    refine ⟨res, ?_, ?_, ?_, ?_, ?_⟩
    · rw [hunf, hcond']
      exact hres
    · refine ⟨k1, ?_⟩
      rw [hresat, hat1', List.take_append_eq_append_take]
      have hz : k1 - high.length = 0 := by omega
      rw [hz, List.take_zero, List.append_nil]
    · intro hcf
      rw [hcond'] at hcf
      cases hcf
    · intro _
      exact ⟨k1, hk1, by rw [hresat, hat1']⟩
    · intro row2 h2
      rw [h2]

/-- Witness for C4: priority list `["al"]` puts "alpha" in the priority
set and "beta" in the remainder; no slots anywhere, so both sets are
scanned, priority first. -/
theorem C4_priority_then_remainder_witness :
    ∃ res, process_job { priorityCentres := ["al"] } (fun _ _ => .slots [])
        (fun _ _ _ => 0) (fun _ => false) true false jobNew { now := 0 } = .ok res
      ∧ (∃ k, res.attempted = (["alpha"] ++ ["beta"]).take k) := by
  obtain ⟨res, h1, h2, _⟩ :=
    C4_priority_then_remainder { priorityCentres := ["al"] } (fun _ _ => .slots [])
      (fun _ _ _ => 0) (fun _ => false) false jobNew { now := 0 }
      (fun _ => rfl) (by decide) (by decide)
  exact ⟨res, h1, h2⟩

/-! ### C5: the global pause gate -/

theorem finish_pass_paused (cfg : Config) (pause : Nat → Bool) (book : Bool)
    (row : Job) (st : PassState) (hp : pause st.pc = true) :
    finish_pass cfg pause true book row st
      = .ok { statusSet := some ("queued", "paused:global"), attempted := st.attempted,
              events := st.events, notes := st.notes, calls := st.calls, bookCalls := [],
              w := st.w } := by
  simp [finish_pass, hp, set_status_effects_queued]

/-- **C5.**  The `pause_all` flag is consulted (i) in the claim loop
before claiming — a paused tick claims no Jobs and processes nothing;
(ii) at the start of `process_job` — the Job is requeued
`paused:global` with no resource attempt and no portal call; (iii) in
`check_one` before each resource attempt — the attempt is skipped
entirely; (iv) in `dvsa_check_centre` again immediately before any
network-visible action — the portal is never called; and (v) when pause
is observed mid-pass and stays up, no further resource attempt starts
and the Job's status is set to `queued` with event `paused:global`. -/
theorem C5_pause_gate (cfg : Config) (portal : Portal)
    (rand : Nat → Nat → Nat → Nat) (book : Bool) :
    (∀ (pause : Nat → Bool) (prevPause apiOk : Bool) (inp : LoopInput) (w : World),
      (if inp.controlsOk then inp.pause_all else prevPause) = true →
      loopIter cfg portal rand pause apiOk book prevPause inp w = (.pausedIdle, w))
    ∧ (∀ (pause : Nat → Bool) (row : Job) (w : World),
        pause 0 = true →
        process_job cfg portal rand pause true book row w
          = .ok { statusSet := some ("queued", "paused:global"),
                  events := ["paused:global"], w := w })
    ∧ (∀ (pause : Nat → Bool) (row : Job) (st : PassState) (c : String),
        pause st.pc = true →
        check_one cfg portal pause row st c = { st with pc := st.pc + 1 })
    ∧ (∀ (pause : Nat → Bool) (row : Job) (c : String) (w : World) (pc : Nat),
        pause pc = false → pause (pc + 1) = true →
        global_allowed w.now w.health = true →
        centre_allowed w.now w.health c = true →
        dvsa_check_centre cfg portal pause row c w pc
          = ⟨.pausedPreNet, ["paused:global"], [], [], w, pc + 2⟩)
    ∧ (∀ (pause : Nat → Bool) (row : Job) (st : PassState) (cs : List String),
        (∀ i, st.pc ≤ i → pause i = true) →
        runPass cfg portal pause row st cs = { st with pc := st.pc + cs.length }
        ∧ ∃ res, finish_pass cfg pause true book row
            (runPass cfg portal pause row st cs) = .ok res
          ∧ res.statusSet = some ("queued", "paused:global")
          ∧ res.attempted = st.attempted) := by
  refine ⟨?_, ?_, ?_, ?_, ?_⟩
  · intro pause prevPause apiOk inp w hp
    simp [loopIter, hp]
  · intro pause row w hp
    simp [process_job, hp]
  · intro pause row st c hp
    exact check_one_paused cfg portal pause row st c hp
  · intro pause row c w pc hp1 hp2 hg hc
    simp [dvsa_check_centre, hp1, hp2, hg, hc]
  · intro pause row st cs hmono
    have hrp := runPass_paused cfg portal pause row cs st hmono
    refine ⟨hrp, ?_⟩
    rw [hrp]
    exact ⟨_, finish_pass_paused cfg pause book row _ (hmono _ (by simp)), rfl, rfl⟩

/-- Witness for C5 at concrete inputs (pause constantly on, or switching
on after the first read). -/
theorem C5_pause_gate_witness :
    loopIter {} (fun _ _ => .slots ["s"]) (fun _ _ _ => 0) (fun _ => true) true false
        true { pause_all := true } { now := 0 } = (.pausedIdle, { now := 0 })
    ∧ process_job {} (fun _ _ => .slots ["s"]) (fun _ _ _ => 0) (fun _ => true) true false
        jobNew { now := 0 }
        = .ok { statusSet := some ("queued", "paused:global"),
                events := ["paused:global"], w := { now := 0 } }
    ∧ dvsa_check_centre {} (fun _ _ => .slots ["s"]) (fun i => i == 1) jobNew "alpha"
        { now := 0 } 0
        = ⟨.pausedPreNet, ["paused:global"], [], [], { now := 0 }, 2⟩ := by
  have h := C5_pause_gate {} (fun _ _ => .slots ["s"]) (fun _ _ _ => 0) false
  refine ⟨h.1 (fun _ => true) true true { pause_all := true } { now := 0 } rfl,
    h.2.1 (fun _ => true) jobNew { now := 0 } rfl,
    h.2.2.2.1 (fun i => i == 1) jobNew "alpha" { now := 0 } 0 rfl rfl rfl rfl⟩

/-! ### C2: where per-job exceptions are caught -/

/-- **C2 counterexample.**  `process_job` has no boundary try/except:
when the status-report call (`set_status_api`) raises — here modelled by
`apiOk = false` — the exception escapes `process_job` (`.error ()`), and
no status report for the Job is made.  It is the *top-level loop*, not
the JobRunner boundary, that catches it (the batch ends `.batchError`
and the loop backs off), contradicting "caught at the process_job
boundary and converted into a status report for that Job". -/
theorem C2_uncaught_at_runner_cex :
    process_job {} (fun _ _ => .slots ["s"]) (fun _ _ _ => 0) (fun _ => false) false false
        { jobNew with licence_number := "" } { now := 0 } = .error ()
    ∧ loopIter {} (fun _ _ => .slots ["s"]) (fun _ _ _ => 0) (fun _ => false) false false
        false { jobs := [{ jobNew with licence_number := "" }] } { now := 0 }
      = (.batchError, { now := 0 }) := by
  constructor <;> rfl

/-- **C2 (amended).**  The engine process never terminates because of a
single Job's failure — but not because exceptions are caught inside
`process_job` (they are not; see the counterexample): every iteration of
the top-level loop ends in a continue outcome (there is no crash
outcome), and when processing a batch raises, the loop catches it, logs
it, and backs off one poll interval before continuing. -/
theorem C2_loop_never_crashes (cfg : Config) (portal : Portal)
    (rand : Nat → Nat → Nat → Nat) (pause : Nat → Bool) (apiOk book prevPause : Bool)
    (inp : LoopInput) (w : World) :
    ((loopIter cfg portal rand pause apiOk book prevPause inp w).1.sleepsPoll = true
      ∨ ∃ rs, (loopIter cfg portal rand pause apiOk book prevPause inp w).1 = .processed rs)
    ∧ ((if inp.controlsOk then inp.pause_all else prevPause) = false →
        inp.quiet = false →
        global_allowed w.now w.health = true →
        inp.claimOk = true →
        inp.jobs.isEmpty = false →
        (processBatch cfg portal rand pause apiOk book inp.jobs w).1 = false →
        ∃ w', loopIter cfg portal rand pause apiOk book prevPause inp w = (.batchError, w')
          ∧ LoopOutcome.batchError.sleepsPoll = true) := by
  constructor
  · by_cases h1 : (if inp.controlsOk then inp.pause_all else prevPause) = true
    · left; simp [loopIter, h1, LoopOutcome.sleepsPoll]
    · have h1' : (if inp.controlsOk then inp.pause_all else prevPause) = false := by
        simpa using h1
      by_cases h2 : (inp.quiet || !global_allowed w.now w.health) = true
      · left; simp [loopIter, h1', h2, LoopOutcome.sleepsPoll]
      · have h2' : (inp.quiet || !global_allowed w.now w.health) = false := by
          simpa using h2
        by_cases h3 : inp.claimOk = true
        · by_cases h4 : inp.jobs.isEmpty = true
          · left; simp [loopIter, h1', h2', h3, h4, LoopOutcome.sleepsPoll]
          · have h4' : inp.jobs.isEmpty = false := by simpa using h4
            rcases hpb : processBatch cfg portal rand pause apiOk book inp.jobs w
              with ⟨b, rs, w'⟩
            cases b
            · left; simp [loopIter, h1', h2', h3, h4', hpb, LoopOutcome.sleepsPoll]
            · right
              exact ⟨rs, by simp [loopIter, h1', h2', h3, h4', hpb]⟩
        · have h3' : inp.claimOk = false := by simpa using h3
          left; simp [loopIter, h1', h2', h3', LoopOutcome.sleepsPoll]
  · intro hp hq hg hc hj hfail
    rcases hpb : processBatch cfg portal rand pause apiOk book inp.jobs w with ⟨b, rs, w'⟩
    have hb : b = false := by rw [hpb] at hfail; exact hfail
    subst hb
    exact ⟨w', by simp [loopIter, hp, hq, hg, hc, hj, hpb], rfl⟩

/-- Witness for C2 (amended): a batch with one job whose status report
raises ends the iteration in `batchError` with a poll-interval backoff. -/
theorem C2_loop_never_crashes_witness :
    ∃ w', loopIter {} (fun _ _ => .slots ["s"]) (fun _ _ _ => 0) (fun _ => false) false false
        false { jobs := [{ jobNew with licence_number := "" }] } { now := 0 }
      = (.batchError, w') ∧ LoopOutcome.batchError.sleepsPoll = true :=
  (C2_loop_never_crashes {} (fun _ _ => .slots ["s"]) (fun _ _ _ => 0)
    (fun _ => false) false false false
    { jobs := [{ jobNew with licence_number := "" }] } { now := 0 }).2
    rfl rfl rfl rfl rfl rfl

end FastDTF
